import Mathlib

/-!
# Verification of hpc_submit_scripts

A shallow embedding, in Lean, of the option-resolution, string/file helpers and
submission-dispatch logic of the `hpc_submit_scripts` repository
(`python/opthandler.py`, `python/gmx.py`, `python/strng.py`,
`analysis/lintf2_ether/gmx/submit_gmx_analyses_lintf2_ether.py`,
`analysis/lintf2_ether/mdt/submit_mdt_analyses_lintf2_ether.py`),
together with theorems settling the specification claims about that code.

Modelling conventions:
* Python strings are modelled as Lean `String`/`List Char`, restricted to the
  ASCII fragment (Unicode-only behaviours of `str.isdigit`, `str.lower`,
  `int()` on non-ASCII digits are outside the model).
* Python floats are modelled as exact rationals (plus infinities and NaN where
  `float()` can produce them).  IEEE-754 rounding of decimal literals is not
  modelled; every concrete input used in a theorem below is exactly
  representable, so code and model agree there.
* Python dicts are modelled as insertion-ordered association lists with unique
  keys, with faithful `update` / `pop` / `setdefault` / assignment operations.
* The filesystem is a list of existing file names; file *contents* consumed by
  the submit scripts (box size from a .gro file, last time from a .log file)
  enter the embedding of the `__main__` blocks as oracle parameters, while the
  content-reading helpers themselves (`tail`) are embedded directly.
-/

namespace HpcSS

/-- Decidable equality for `Except`, used to evaluate the fallible embedded
functions at concrete inputs. -/
instance {ε α : Type} [DecidableEq ε] [DecidableEq α] :
    DecidableEq (Except ε α) := fun a b =>
  match a, b with
  | .ok x, .ok y =>
    if h : x = y then .isTrue (by rw [h]) else .isFalse (by simp [h])
  | .error x, .error y =>
    if h : x = y then .isTrue (by rw [h]) else .isFalse (by simp [h])
  | .ok _, .error _ => .isFalse (by simp)
  | .error _, .ok _ => .isFalse (by simp)

/-! ## Python string primitives (ASCII fragment) -/

/-- Characters Python's `str.split()` / `str.strip()` treat as whitespace
(ASCII fragment). -/
def isPySpace (c : Char) : Bool :=
  c = ' ' || c = '\t' || c = '\n' || c = '\x0d' || c = '\x0b' || c = '\x0c'

/-- ASCII decimal digit. -/
def isAsciiDigit (c : Char) : Bool :=
  '0' ≤ c && c ≤ '9'

/-- Python `str.strip()` on a character list. -/
def pyStrip (cs : List Char) : List Char :=
  ((cs.dropWhile isPySpace).reverse.dropWhile isPySpace).reverse

/-- Python `str.strip()` on a `String`. -/
def pyStripS (s : String) : String :=
  ⟨pyStrip s.data⟩

/-- Python `str.lower()` (ASCII fragment). -/
def pyLower (cs : List Char) : List Char :=
  cs.map Char.toLower

/-- Python `str.split()` with no argument: split on runs of whitespace,
discarding empty tokens. -/
def pySplit (cs : List Char) : List (List Char) :=
  (List.splitOnP (fun c => isPySpace c) cs).filter (fun t => !t.isEmpty)

/-- Python `str.split()` on a `String`, returning `String` tokens. -/
def pySplitS (s : String) : List String :=
  (pySplit s.data).map (fun t => ⟨t⟩)

/-- Python `str.isdigit()` (ASCII fragment): nonempty and all characters are
decimal digits `0`-`9`. -/
def pyIsdigit (cs : List Char) : Bool :=
  !cs.isEmpty && cs.all isAsciiDigit

/-- Value of a string of decimal digits, as `int()` computes it. -/
def digitsToNat (cs : List Char) : Nat :=
  cs.foldl (fun acc c => 10 * acc + (c.toNat - '0'.toNat)) 0

/-- Python substring test `needle in haystack`. -/
def pyContains (haystack needle : String) : Bool :=
  decide (needle.data <:+: haystack.data)

/-! ### `int()` and `float()` literal parsing

Model of CPython's `int(str)` / `float(str)` on the ASCII fragment: optional
surrounding whitespace, optional sign, digit groups that may contain single
underscores between digits, and (for `float`) an optional fractional part,
exponent, `inf`/`infinity`/`nan`. -/

/-- After the first digit of a digit group: every later character is a digit or
a single underscore followed by a digit. -/
def digitsUSAux : List Char → Bool
  | [] => true
  | c :: rest =>
    if c = '_' then
      match rest with
      | [] => false
      | d :: r => isAsciiDigit d && digitsUSAux r
    else isAsciiDigit c && digitsUSAux rest

/-- A valid Python digit group (`digit (("_")? digit)*`): nonempty, starts with
a digit, underscores only between digits. -/
def digitsUS : List Char → Bool
  | [] => false
  | c :: rest => isAsciiDigit c && digitsUSAux rest

/-- Numeric value of a digit group, ignoring its underscores. -/
def digitsUSVal (cs : List Char) : Nat :=
  digitsToNat (cs.filter (fun c => c ≠ '_'))

/-- Model of Python `int(str)`: `None` when `int()` would raise `ValueError`. -/
def pyIntParse (cs : List Char) : Option Int :=
  let t := pyStrip cs
  match t with
  | '+' :: rest => if digitsUS rest then some (digitsUSVal rest) else none
  | '-' :: rest => if digitsUS rest then some (-(digitsUSVal rest : Int)) else none
  | _ => if digitsUS t then some (digitsUSVal t) else none

/-! ### Exact rational arithmetic

The numeric option values handled by the scripts are Python floats.  They are
modelled as exact fractions of integers (`Q`), with executable arithmetic that
the Lean kernel can evaluate.  Binary floating-point rounding is not modelled;
every concrete numeric input appearing in a theorem below is exactly
representable in binary, so the code and the model agree at those inputs.
Invariant (maintained by all the operations used, given the guards the source
performs before dividing): the denominator is positive. -/

/-- An exact fraction of integers.  The denominator is kept positive by every
operation below. -/
structure Q where
  num : Int
  den : Int
  deriving DecidableEq, Repr

/-- Embed an integer. -/
def Q.ofInt (n : Int) : Q := ⟨n, 1⟩

/-- Addition of fractions (no normalisation). -/
def Q.add (a b : Q) : Q := ⟨a.num * b.den + b.num * a.den, a.den * b.den⟩

/-- Negation. -/
def Q.neg (a : Q) : Q := ⟨-a.num, a.den⟩

/-- Subtraction. -/
def Q.sub (a b : Q) : Q := a.add b.neg

/-- Multiplication. -/
def Q.mul (a b : Q) : Q := ⟨a.num * b.num, a.den * b.den⟩

/-- Division, normalising the sign of the denominator.  Division by zero (which
the source scripts guard against) yields a zero denominator. -/
def Q.div (a b : Q) : Q :=
  let n := a.num * b.den
  let d := a.den * b.num
  if d < 0 then ⟨-n, -d⟩ else ⟨n, d⟩

/-- Value comparison `a < b` (valid for positive denominators). -/
def Q.blt (a b : Q) : Bool := a.num * b.den < b.num * a.den

/-- Value comparison `a ≤ b` (valid for positive denominators). -/
def Q.ble (a b : Q) : Bool := a.num * b.den ≤ b.num * a.den

/-- Value equality (valid for positive denominators). -/
def Q.beq (a b : Q) : Bool := a.num * b.den = b.num * a.den

/-- Multiplication by `10 ^ e` for an integer `e`. -/
def Q.scale10 (e : Int) (a : Q) : Q :=
  if 0 ≤ e then ⟨a.num * 10 ^ e.toNat, a.den⟩ else ⟨a.num, a.den * 10 ^ (-e).toNat⟩

/-- Floor of a fraction with positive denominator. -/
def Q.floor (a : Q) : Int := Int.fdiv a.num a.den

/-- Round to the nearest integer, ties to even — the rounding used by Python's
`round()` and by `format(x, ".Nf")` at exactly representable values. -/
def Q.roundHalfEven (a : Q) : Int :=
  let f := a.floor
  let r := a.num - f * a.den
  if 2 * r < a.den then f
  else if a.den < 2 * r then f + 1
  else if f % 2 = 0 then f else f + 1

/-- A Python float value: an exact rational, a signed infinity, or NaN. -/
inductive PyFloat where
  | finite (q : Q)
  | inf (neg : Bool)
  | nan
  deriving DecidableEq, Repr

/-- Mantissa of a float literal: `digitpart | digitpart "." digitpart? |
digitpart? "." digitpart`. -/
def floatMantissa (cs : List Char) : Option Q :=
  match cs.splitOn '.' with
  | [ip] => if digitsUS ip then some (Q.ofInt (digitsUSVal ip)) else none
  | [ip, fp] =>
    if ip.isEmpty && fp.isEmpty then none
    else if (ip.isEmpty || digitsUS ip) && (fp.isEmpty || digitsUS fp) then
      some ((Q.ofInt (digitsUSVal ip)).add
        ⟨digitsUSVal fp, 10 ^ (fp.filter (fun c => c ≠ '_')).length⟩)
    else none
  | _ => none

/-- Exponent of a float literal: optional sign and a digit group. -/
def floatExponent (cs : List Char) : Option Int :=
  match cs with
  | '+' :: rest => if digitsUS rest then some (digitsUSVal rest) else none
  | '-' :: rest => if digitsUS rest then some (-(digitsUSVal rest : Int)) else none
  | _ => if digitsUS cs then some (digitsUSVal cs) else none

/-- Unsigned body of a Python float literal (no sign, already lower-cased). -/
def floatBody (cs : List Char) : Option PyFloat :=
  if cs = "inf".data || cs = "infinity".data then some (.inf false)
  else if cs = "nan".data then some .nan
  else
    match cs.splitOn 'e' with
    | [m] => (floatMantissa m).map .finite
    | [m, x] =>
      match floatMantissa m, floatExponent x with
      | some q, some e => some (.finite (Q.scale10 e q))
      | _, _ => none
    | _ => none

/-- Negate a Python float. -/
def PyFloat.neg : PyFloat → PyFloat
  | .finite q => .finite q.neg
  | .inf b => .inf (!b)
  | .nan => .nan

/-- Model of Python `float(str)` (ASCII fragment): `None` when `float()` would
raise `ValueError`. -/
def pyFloatParse (cs : List Char) : Option PyFloat :=
  let t := pyLower (pyStrip cs)
  match t with
  | '+' :: rest => floatBody rest
  | '-' :: rest => (floatBody rest).map PyFloat.neg
  | _ => floatBody t

/-! ## Python values and dictionaries -/

/-- The scalar value space handled by the option machinery:
`None | bool | int | float | str`. -/
inductive PyVal where
  | none
  | bool (b : Bool)
  | int (n : Int)
  | float (f : PyFloat)
  | str (s : String)
  deriving DecidableEq, Repr

/-- Decimal rendering of a fraction whose reduced denominator divides `10^k`
for some `k ≤ 30`; other fractions (which never arise from the scripts' inputs
in the claims below) are rendered as an exact fraction.  Models Python
`str(float)` closely enough for every use in this development: no claim
inspects a float rendering other than at exactly representable values. -/
def ratRepr (q : Q) : String :=
  let sign := if q.num * q.den < 0 then "-" else ""
  let g := Nat.gcd q.num.natAbs q.den.natAbs
  let n := q.num.natAbs / g
  let d := q.den.natAbs / g
  match (List.range 31).find? (fun k => d ∣ 10 ^ k) with
  | some k =>
    let scaled := n * (10 ^ k / d)
    let ip := scaled / 10 ^ k
    let fp := scaled % 10 ^ k
    let fpStr := toString fp
    let fpStr := String.mk (List.replicate (k - fpStr.length) '0') ++ fpStr
    if k = 0 then sign ++ toString ip ++ ".0"
    else sign ++ toString ip ++ "." ++ fpStr
  | none => sign ++ toString n ++ "/" ++ toString d

/-- Model of Python `str()` on a `PyFloat`. -/
def PyFloat.repr : PyFloat → String
  | .finite q => ratRepr q
  | .inf b => if b then "-inf" else "inf"
  | .nan => "nan"

/-- Model of Python `str()` on a `PyVal`. -/
def pyStr : PyVal → String
  | .none => "None"
  | .bool true => "True"
  | .bool false => "False"
  | .int n => toString n
  | .float f => f.repr
  | .str s => s

/-- An insertion-ordered Python dictionary with `String` keys. -/
abbrev Dict (β : Type) := List (String × β)

/-- `d[k]`, as an `Option`. -/
def dlookup (d : Dict β) (k : String) : Option β :=
  (d.find? (fun p => p.1 = k)).map (·.2)

/-- `k in d`. -/
def dmem (d : Dict β) (k : String) : Bool :=
  (dlookup d k).isSome

/-- `d[k] = v`: replace the value in place if the key exists, else append. -/
def dinsert (d : Dict β) (k : String) (v : β) : Dict β :=
  if dmem d k then d.map (fun p => if p.1 = k then (k, v) else p)
  else d ++ [(k, v)]

/-- `d.update(o)`: assign every binding of `o` into `d`, in `o`'s order. -/
def dupdate (d o : Dict β) : Dict β :=
  o.foldl (fun acc p => dinsert acc p.1 p.2) d

/-- `d.pop(k, None)`: remove the binding of `k` if present. -/
def dpop (d : Dict β) (k : String) : Dict β :=
  d.filter (fun p => p.1 ≠ k)

/-- `d.setdefault(k, v)`: insert `(k, v)` only if `k` is absent. -/
def dsetdefault (d : Dict β) (k : String) (v : β) : Dict β :=
  if dmem d k then d else d ++ [(k, v)]

/-! ### Lookup lemmas for the dictionary model -/

/-- Lookup distributes over append. -/
theorem dlookup_append (d e : Dict β) (k : String) :
    dlookup (d ++ e) k = ((dlookup d k).or (dlookup e k)) := by
  unfold dlookup
  rw [List.find?_append]
  cases h : List.find? (fun p => decide (p.1 = k)) d <;> simp [h]

/-- `setdefault` leaves other keys untouched. -/
theorem dlookup_dsetdefault_ne (d : Dict β) (k : String) (v : β) (k' : String)
    (h : k' ≠ k) : dlookup (dsetdefault d k v) k' = dlookup d k' := by
  unfold dsetdefault
  split
  · rfl
  · rw [dlookup_append]
    simp [dlookup, List.find?, h.symm]

/-- `setdefault` on the looked-up key: the old value wins if present. -/
theorem dlookup_dsetdefault_self (d : Dict β) (k : String) (v : β) :
    dlookup (dsetdefault d k v) k = some ((dlookup d k).getD v) := by
  unfold dsetdefault dmem
  by_cases h : (dlookup d k).isSome
  · rw [if_pos h]
    rcases Option.isSome_iff_exists.mp h with ⟨w, hw⟩
    simp [hw]
  · rw [if_neg h]
    rw [Option.not_isSome_iff_eq_none] at h
    rw [dlookup_append, h]
    simp [dlookup, List.find?]

/-- In-place overwrite of one key does not disturb `find?` for another. -/
theorem find?_map_overwrite (k k' : String) (v : β) (hne : k' ≠ k)
    (d : Dict β) :
    List.find? (fun p => decide (p.1 = k'))
        (d.map (fun p => if p.1 = k then (k, v) else p))
      = List.find? (fun p => decide (p.1 = k')) d := by
  induction d with
  | nil => rfl
  | cons p d ih =>
    rw [List.map_cons, List.find?_cons, List.find?_cons]
    by_cases hp : p.1 = k
    · rw [if_pos hp]
      have h1 : (decide ((k, v).1 = k')) = false := by simp [hne.symm]
      have h2 : (decide (p.1 = k')) = false := by
        simp only [hp, decide_eq_false_iff_not]
        exact fun e => hne e.symm
      rw [h1, h2, ih]
    · rw [if_neg hp]
      cases hd : decide (p.1 = k') <;> simp [hd, ih]

/-- Assignment leaves other keys untouched. -/
theorem dlookup_dinsert_ne (d : Dict β) (k : String) (v : β) (k' : String)
    (h : k' ≠ k) : dlookup (dinsert d k v) k' = dlookup d k' := by
  unfold dinsert
  split
  · unfold dlookup
    rw [find?_map_overwrite k k' v h]
  · rw [dlookup_append]
    simp [dlookup, List.find?, h.symm]

/-- `if cond: files.setdefault(k, v)` — one guarded `setdefault` statement of
the file-requirement loops. -/
def condSet (c : Bool) (d : Dict β) (k : String) (v : β) : Dict β :=
  if c then dsetdefault d k v else d

/-- Guarded `setdefault` leaves other keys untouched. -/
theorem dlookup_condSet_ne (c : Bool) (d : Dict β) (k : String) (v : β)
    (k' : String) (h : k' ≠ k) :
    dlookup (condSet c d k v) k' = dlookup d k' := by
  unfold condSet
  split
  · exact dlookup_dsetdefault_ne _ _ _ _ h
  · rfl

/-- Guarded `setdefault` on the looked-up key. -/
theorem dlookup_condSet_self (c : Bool) (d : Dict β) (k : String) (v : β) :
    dlookup (condSet c d k v) k
      = if c then some ((dlookup d k).getD v) else dlookup d k := by
  unfold condSet
  split <;> simp_all [dlookup_dsetdefault_self]

/-! ## `strng.py` -/

/-- `strng.extract_ints_from_str`:
`[int(i) for i in s.split() if i.isdigit()]`. -/
def extract_ints_from_str (s : String) : List Nat :=
  ((pySplit s.data).filter pyIsdigit).map digitsToNat

/-! ## `opthandler.convert_str` -/

/-- `opthandler.convert_str`, embedded with all of its keyword options.
Returns the converted value; the `int()`/`float()` failures the source catches
with `try`/`except ValueError` are the `none` branches of the parsers, so the
function is total (it never propagates an exception). -/
def convert_str (s : String) (strip case_sensitive empty_none extended_bool
    bool_01 : Bool) : PyVal :=
  let input0 := s.data
  let input1 := if strip then pyStrip input0 else input0
  let eval_none := ["None".data] ++ (if empty_none then [([] : List Char)] else [])
  let eval_true := ["True".data] ++ (if extended_bool then ["Yes".data, "On".data] else [])
    ++ (if bool_01 then ["1".data] else [])
  let eval_false := ["False".data] ++ (if extended_bool then ["No".data, "Off".data] else [])
    ++ (if bool_01 then ["0".data] else [])
  let input_str := if !case_sensitive then pyLower input1 else input1
  let eval_none := if !case_sensitive then eval_none.map pyLower else eval_none
  let eval_true := if !case_sensitive then eval_true.map pyLower else eval_true
  let eval_false := if !case_sensitive then eval_false.map pyLower else eval_false
  if input_str ∈ eval_none then .none
  else if input_str ∈ eval_true then .bool true
  else if input_str ∈ eval_false then .bool false
  else
    match pyIntParse input_str with
    | some n => .int n
    | Option.none =>
      match pyFloatParse input_str with
      | some f => .float f
      | Option.none => .str s

/-- `convert_str` at its default keyword arguments
(`strip=True`, `case_sensitive=False`, `empty_none=False`,
`extended_bool=False`, `bool_01=False`). -/
def convert_str_default (s : String) : PyVal :=
  convert_str s true false false false false

/-- The coercion as the specification words it: strip whitespace;
case-insensitively match `none`/`true`/`false`; else integer parse, else float
parse, else the input unchanged as a string. -/
def specCoerce (s : String) : PyVal :=
  let t := pyLower (pyStrip s.data)
  if t = "none".data then .none
  else if t = "true".data then .bool true
  else if t = "false".data then .bool false
  else
    match pyIntParse t with
    | some n => .int n
    | Option.none =>
      match pyFloatParse t with
      | some f => .float f
      | Option.none => .str s

/-! ## `shlex.join` -/

/-- Characters `shlex.quote` treats as safe: letters, digits and the symbols
`_ @ % + = : , . / -`. -/
def shlexSafe (c : Char) : Bool :=
  ('a' ≤ c && c ≤ 'z') || ('A' ≤ c && c ≤ 'Z') || ('0' ≤ c && c ≤ '9') ||
    c = '_' || c = '@' || c = '%' || c = '+' || c = '=' || c = ':' ||
    c = ',' || c = '.' || c = '/' || c = '-'

/-- `shlex.quote`. -/
def shlexQuote (s : String) : String :=
  if s = "" then "''"
  else if s.data.all shlexSafe then s
  else "'" ++ ⟨s.data.flatMap (fun c =>
    if c = '\'' then "'\"'\"'".data else [c])⟩ ++ "'"

/-- `shlex.join`. -/
def shlexJoin (args : List String) : String :=
  joinWithSp (args.map shlexQuote)
where
  /-- `" ".join`. -/
  joinWithSp : List String → String
    | [] => ""
    | [x] => x
    | x :: y :: xs => x ++ " " ++ joinWithSp (y :: xs)

/-! ## `opthandler.optdict2list` / `optdict2str` -/

/-- One iteration of the `optdict2list` loop (in its `convert_to_str=True`
branch, the one the submit scripts use): strip the key, stringify and strip
the value, skip values in `skiped_opts`, blank values in `dumped_vals`, prefix
the key with `-` or `--` by its length, and append the value unless it is
empty. -/
def optdict2listStep (skiped_opts dumped_vals : List String)
    (optlist : List String) (p : String × PyVal) : List String :=
  let opt := pyStripS p.1
  let val := pyStripS (pyStr p.2)
  if val ∈ skiped_opts then optlist
  else
    let val := if val ∈ dumped_vals then "" else val
    let optlist :=
      if opt.length = 1 then optlist ++ ["-" ++ opt]
      else if 1 < opt.length then optlist ++ ["--" ++ opt]
      else optlist
    if val = "" then optlist else optlist ++ [val]

/-- `opthandler.optdict2list`: the accumulating loop over the dictionary
entries. -/
def optdict2list (optdict : Dict PyVal) (skiped_opts dumped_vals : List String) :
    List String :=
  optdict.foldl (optdict2listStep skiped_opts dumped_vals) []

/-- `opthandler.optdict2str`: `shlex.join(optdict2list(...))`. -/
def optdict2str (optdict : Dict PyVal) (skiped_opts dumped_vals : List String) :
    String :=
  shlexJoin (optdict2list optdict skiped_opts dumped_vals)

/-! ## `opthandler.posargs2str` and fixed-point formatting -/

/-- A positional-argument value handed to `posargs2str`. -/
inductive PosArg where
  | str (s : String)
  | int (n : Int)
  | float (q : Q)
  | bool (b : Bool)
  | none
  deriving DecidableEq, Repr

/-- Python `"{:.{p}f}".format(x, p=prec)` at an exactly representable value:
round to `prec` decimal places, ties to even. -/
def formatFixed (q : Q) (prec : Nat) : String :=
  let n := (q.mul ⟨10 ^ prec, 1⟩).roundHalfEven
  let sign := if n < 0 then "-" else ""
  let m := n.natAbs
  let ip := m / 10 ^ prec
  let fp := m % 10 ^ prec
  let fpStr := toString fp
  let fpStr := String.mk (List.replicate (prec - fpStr.length) '0') ++ fpStr
  if prec = 0 then sign ++ toString ip
  else sign ++ toString ip ++ "." ++ fpStr

/-- `opthandler.posargs2str`: floats are formatted with a fixed number of
decimal places, booleans become `1`/`0`, everything is stringified, and the
result is `shlex.join`ed. -/
def posargs2str (posargs : List PosArg) (prec : Nat) : String :=
  shlexJoin (posargs.map (fun arg =>
    match arg with
    | .float q => formatFixed q prec
    | .bool b => toString (if b then (1 : Nat) else 0)
    | .int n => toString n
    | .none => "None"
    | .str s => s))

/-! ## `opthandler.get_opts`: flattening the known/unknown config sections

Lines 693-702 of `opthandler.py`:
```
sec_known = secs_known[0]
for sec in secs_known[:0:-1]:
    options[sec_known].update(options[sec])
    options.pop(sec)
```
(and the identical loop for `secs_unknown`).  `options` is the dictionary of
per-section option sub-dictionaries obtained from the config file. -/

/-- The section-flattening loop of `get_opts`, for one section list.
`secs[:0:-1]` is the reverse of `secs.drop 1`. -/
def get_opts_flatten (options : Dict (Dict PyVal)) (secs : List String) :
    Dict (Dict PyVal) :=
  match secs with
  | [] => options
  | sec_known :: rest =>
    (rest.reverse).foldl (fun opts sec =>
      let merged := dupdate ((dlookup opts sec_known).getD [])
        ((dlookup opts sec).getD [])
      dpop (dinsert opts sec_known merged) sec) options

/-! ## `gmx.get_compressed_file` -/

/-- The extension list tried by `gmx.get_compressed_file`, in order. -/
def compressedFormats : List String :=
  ["", ".gz", ".bz2", ".xz", ".lzma"]

/-- `"' '".join(files)` as used in `get_compressed_file`'s error message. -/
def joinWith (sep : String) : List String → String
  | [] => ""
  | [x] => x
  | x :: y :: xs => x ++ sep ++ joinWith sep (y :: xs)

/-- `gmx.get_compressed_file`: return the first existing file among the input
name and its four compression-extension variants, checked in order; raise
`FileNotFoundError` listing all attempted names when none exists.  The
filesystem is the list `fs` of existing file names. -/
def get_compressed_file (fs : List String) (fname : String) : Except String String :=
  let files := compressedFormats.map (fun fmt => fname ++ fmt)
  match files.find? (fun f => fs.contains f) with
  | some f => .ok f
  | Option.none => .error ("No such files: '" ++ joinWith "' '" files ++ "'")

/-! ## `gmx.tail`

`tail(fname, n)` seeks backwards from the end of the file in steps of
`max(10 * n, 1)` bytes, re-reading all lines from the current position, until
at least `n + 1` lines are buffered or the start of the file is reached, and
returns `lines[-n:]`.  The file is modelled by its text content (a character
list); `file.readlines()` from position `pos` is `linesOf (content.drop pos)`. -/

/-- Python `readlines()` line splitting: lines keep their terminating newline;
a trailing chunk without a newline is also a line. -/
def linesOf : List Char → List (List Char)
  | [] => []
  | c :: cs =>
    if c = '\n' then ['\n'] :: linesOf cs
    else
      match linesOf cs with
      | [] => [[c]]
      | l :: ls => (c :: l) :: ls

/-- Python `l[-n:]` for `n ≥ 1` (and `l[:0] = []`-free: for `n = 0` this is
the whole-list drop, used only through `tail`'s early return). -/
def lastN (n : Nat) (l : List α) : List α :=
  l.drop (l.length - n)

/-- The backward-seek loop of `gmx.tail`: from cursor position `pos`, move the
cursor back by `min(step_width, pos)`, read all lines from there, stop when the
start of the file is reached or at least `n + 1` lines are buffered. -/
def tailLoop (content : List Char) (n : Nat) (pos : Nat) : List (List Char) :=
  let step := max (10 * n) 1
  let pos' := pos - min step pos
  let lines := linesOf (content.drop pos')
  if pos' = 0 then lines
  else if lines.length < n + 1 then tailLoop content n pos'
  else lines
termination_by pos
decreasing_by
  omega

/-- `gmx.tail`: read the last `n` lines of the file. -/
def tail (content : List Char) (n : Nat) : List (List Char) :=
  if n = 0 then [] else lastN n (tailLoop content n content.length)

/-! ## `submit_gmx_analyses_lintf2_ether._submit_discretized`

The function builds one sbatch command per adjacent bin pair.  Note that the
source initialises the accumulating `submit` string *once, before* the bin
loop, and only ever appends to it inside the loop. -/

/-- `_submit_discretized` of the gmx analysis submit script (lines 278-344).
The globals it reads (`gmx_infile_pattern`, `posargs_general`, `posargs_trj`,
`posargs_dist`) are passed as parameters.  Returns the list of command strings
handed to `subprocess.check_output`, in execution order. -/
def gmx_submit_discretized (sbatch_opts : Dict PyVal) (job_script : String)
    (bins : List Q) (gmx_infile_pattern : String)
    (posargs_general posargs_trj posargs_dist : List PosArg) :
    Except String (List String) :=
  let posargs : Dict (List PosArg) := [
    ("densmap-z_gra", posargs_general ++ posargs_trj ++ posargs_dist),
    ("densmap-z_Li", posargs_general ++ posargs_trj ++ posargs_dist),
    ("densmap-z_NBT", posargs_general ++ posargs_trj ++ posargs_dist),
    ("densmap-z_OBT", posargs_general ++ posargs_trj ++ posargs_dist),
    ("densmap-z_OE", posargs_general ++ posargs_trj ++ posargs_dist),
    ("rdf_slab-z_Li", posargs_general ++ posargs_trj ++ posargs_dist),
    ("rdf_slab-z_NBT", posargs_general ++ posargs_trj ++ posargs_dist),
    ("rdf_slab-z_OE", posargs_general ++ posargs_trj ++ posargs_dist)]
  if ¬ dmem posargs job_script then
    .error ("Invalid job script: '" ++ job_script ++ "'.  The script does not"
      ++ " analyze a slab in xy plane")
  else
    let sbatch := "sbatch " ++ optdict2str sbatch_opts ["None", "False"] ["True"]
    let res := (bins.zip (bins.drop 1)).foldl (fun (acc : String × List String) pr =>
      let slab_str := "_" ++ formatFixed pr.1 3 ++ "-" ++ formatFixed pr.2 3 ++ "nm"
      let submit := acc.1
      let submit :=
        if !dmem sbatch_opts "job-name" && !dmem sbatch_opts "J" then
          submit ++ " --job-name " ++ gmx_infile_pattern ++ "_" ++ job_script ++ slab_str
        else submit
      let submit :=
        if !dmem sbatch_opts "output" && !dmem sbatch_opts "o" then
          submit ++ " --output " ++ gmx_infile_pattern ++ "_" ++ job_script ++ slab_str
            ++ "_slurm-%j.out"
        else submit
      let posargs_tmp := posargs2str
        ((dlookup posargs job_script).getD [] ++ [.float pr.1, .float pr.2]) 3
      let submit := submit ++ " " ++ job_script ++ ".sh " ++ posargs_tmp
      (submit, acc.2 ++ [submit])) (sbatch, [])
    .ok res.2

/-! ## Common infrastructure for the two analysis submit scripts

The `__main__` blocks of
`analysis/lintf2_ether/gmx/submit_gmx_analyses_lintf2_ether.py` and
`analysis/lintf2_ether/mdt/submit_mdt_analyses_lintf2_ether.py` are embedded
as sequential programs over:
* `fs : List String` — the names of the files existing on disk;
* content oracles for the two derived quantities read from upstream files
  (`get_box_from_gro(...)[2]` and `get_last_time_from_log`; the readers
  themselves, `tail`/`get_compressed_file`, are embedded above);
* an `oracle : String → String` giving the captured stdout of
  `subprocess.check_output` for a submit command.
Directory constants (`FILE_ROOT`-derived paths) are modelled by fixed
strings.  A run produces the list of executed submit commands (with the
script name and the sbatch-option dictionary that produced each command)
plus an optional uncaught exception. -/

/-- An uncaught Python exception of the submit scripts. -/
inductive PyErr where
  | fnf (msg : String)
  | value (msg : String)
  | index (msg : String)
  | lookupErr (msg : String)
  deriving DecidableEq, Repr

/-- One executed scheduler submission: the job script submitted, the
sbatch-option dictionary used to build the command, and the full command
string handed to `subprocess.check_output`. -/
structure SubEntry where
  script : String
  opts : Dict PyVal
  cmd : String
  deriving DecidableEq, Repr

/-- The observable outcome of a run: executed submissions in order, and the
exception that aborted the run, if any. -/
abbrev SubmitRes := List SubEntry × Option PyErr

/-- Sequence two submission stages: the second runs only if the first did not
raise. -/
def seqRes (r : SubmitRes) (f : Unit → SubmitRes) : SubmitRes :=
  match r.2 with
  | some _ => r
  | Option.none => let r' := f (); (r.1 ++ r'.1, r'.2)

/-- A `for batch_script in posargs.keys()` loop: run `act` on every key, in
order, stopping at the first exception. -/
def resFoldScripts (keys : List String)
    (act : String → Except PyErr (List SubEntry)) : SubmitRes :=
  keys.foldl (fun r s =>
    match r.2 with
    | some _ => r
    | Option.none =>
      match act s with
      | .ok es => (r.1 ++ es, Option.none)
      | .error e => (r.1, some e)) ([], Option.none)

/-- `strng.extract_ints_from_str(job_id)[0]`: the job ID parsed from captured
scheduler stdout; raises `IndexError` when no integer is present. -/
def getJobId (out : String) : Except PyErr Nat :=
  match extract_ints_from_str out with
  | [] => .error (.index "list index out of range")
  | i :: _ => .ok i

/-- A dependency-annotated sbatch-option copy:
`args_sbatch_no_dep` (the user options with `dependency`/`d` popped) plus
`dependency = afterok:<id>`. -/
def dep_opts (args_sbatch_no_dep : Dict PyVal) (id : Nat) : Dict PyVal :=
  dinsert args_sbatch_no_dep "dependency" (.str ("afterok:" ++ toString id))

/-- The `while edge < zmax: edge += slabwidth` bin-edge loop, fuel-bounded.
With exact arithmetic and positive `w` the loop runs exactly
`⌈(zmax − zmin)/w⌉` times; `binEdgesFuel` below exceeds that bound, so the
fuel never runs out on the guarded inputs. -/
def whileAddEdges (zmax w : Q) : Nat → Q → List Q
  | 0, _ => []
  | fuel + 1, edge =>
    if edge.blt zmax then (edge.add w) :: whileAddEdges zmax w fuel (edge.add w)
    else []

/-- Upper bound on the number of iterations of the bin-edge loop (for
denominator-positive `zmin`, `zmax` and positive `w`). -/
def binEdgesFuel (zmin zmax w : Q) : Nat :=
  let d := zmax.sub zmin
  (Int.ediv (d.num * w.den) (d.den * w.num)).toNat + 2

/-- `bin_edges = [zmin]; while edge < zmax: edge += slabwidth; append`. -/
def mkBinEdges (zmin zmax w : Q) : List Q :=
  zmin :: whileAddEdges zmax w (binEdgesFuel zmin zmax w) zmin

/-- The project's `bash` directory (an absolute path at runtime, modelled by a
constant). -/
def BASH_DIR : String := "BASH_DIR"

/-- The path of an lmod source file relative to the project's `lmod`
directory (an absolute path at runtime, modelled by a fixed stem). -/
def lmodPath (rel : String) : String := "LMOD_DIR/" ++ rel

/-! ## The gmx analysis submit script (`submit_gmx_analyses_lintf2_ether.py`) -/

namespace Gmx

/-- The resolved known options of the gmx analysis submit script, as they
stand after `opthandler.get_opts` (CLI plus config file). -/
structure Args where
  system : String
  settings : String
  scripts : String
  beginv : Q
  endv : Option Q
  every : Q
  beginfit : Q
  endfit : Q
  restartv : Q
  binwidth : Q
  zmin : Q
  zmax : Option Q
  slabwidth : Q
  discretize : Bool
  center_slab : Bool
  gmx_lmod : String
  gmx_exe : Option String

/-- `${settings}_${system}`. -/
def infilePattern (a : Args) : String := a.settings ++ "_" ++ a.system

/-- `${settings}_out_${system}`. -/
def outfilePattern (a : Args) : String := a.settings ++ "_out_" ++ a.system

/-- `${settings}_${system}.tpr`. -/
def TPR_FILE (a : Args) : String := infilePattern a ++ ".tpr"

/-- `${settings}_out_${system}.edr`. -/
def EDR_FILE (a : Args) : String := outfilePattern a ++ ".edr"

/-- `${settings}_out_${system}.gro`. -/
def GRO_FILE (a : Args) : String := outfilePattern a ++ ".gro"

/-- `${settings}_out_${system}.log`. -/
def LOG_FILE (a : Args) : String := outfilePattern a ++ ".log"

/-- `${settings}_out_${system}.trr`. -/
def TRR_FILE (a : Args) : String := outfilePattern a ++ ".trr"

/-- `${settings}_out_${system}_pbc_whole_mol.xtc`. -/
def XTC_FILE_WRAPPED (a : Args) : String :=
  outfilePattern a ++ "_pbc_whole_mol.xtc"

/-- `${settings}_out_${system}_pbc_whole_mol_nojump.xtc`. -/
def XTC_FILE_UNWRAPPED (a : Args) : String :=
  outfilePattern a ++ "_pbc_whole_mol_nojump.xtc"

/-- `${system}.ndx`. -/
def NDX_FILE (a : Args) : String := a.system ++ ".ndx"

/-- Scripts requiring the `.edr` energy file. -/
def REQUIRE_EDR : List String := ["energy"]

/-- Scripts requiring the `${system}.ndx` index file. -/
def REQUIRE_NDX : List String :=
  ["density-z_charge", "density-z_mass", "density-z_number", "densmap-z_gra",
   "densmap-z_NBT", "densmap-z_OBT", "densmap-z_OE", "msd", "msd_electrodes",
   "msd_lateral-z", "msd_parallel-z", "msd_tensor", "polystat", "potential-z"]

/-- Scripts requiring the `.trr` full-precision trajectory. -/
def REQUIRE_TRR : List String :=
  ["densmap-z_gra", "densmap-z_Li", "densmap-z_NBT", "densmap-z_OBT",
   "densmap-z_OE", "trjconv_whole"]

/-- Scripts requiring the wrapped compressed trajectory. -/
def REQUIRE_XTC_WRAPPED : List String :=
  ["density-z_charge", "density-z_mass", "density-z_number", "polystat",
   "potential-z", "rdf_ether-com", "rdf_Li", "rdf_Li-com", "rdf_NBT",
   "rdf_NTf2-com", "rdf_OE", "rdf_slab-z_Li", "rdf_slab-z_NBT",
   "rdf_slab-z_OE", "trjconv_nojump"]

/-- Scripts requiring the unwrapped compressed trajectory. -/
def REQUIRE_XTC_UNWRAPPED : List String :=
  ["msd", "msd_electrodes", "msd_lateral-z", "msd_parallel-z", "msd_tensor"]

/-- Results of the "Processing parsed arguments" phase (lines 617-694): the
resolved `--end`, slab bounds, bin count and discretisation edges. -/
structure Ctx where
  endv : Option Q
  zmin : Q
  zmax : Q
  nbins : Option Int
  bin_edges : List Q

/-- The "Processing parsed arguments" phase.  `boxZ f` is the value of
`gmx.get_box_from_gro(f)[2]`, `lastTime f` the value of
`gmx.get_last_time_from_log(f)` (which returns `None` when no Step/Time pair
is found). -/
def processArgs (fs : List String) (boxZ : String → Q)
    (lastTime : String → Option Q) (a : Args) : Except PyErr Ctx := do
  let endv ←
    match a.endv with
    | Option.none =>
      match get_compressed_file fs (LOG_FILE a) with
      | .error e => Except.error (PyErr.fnf
          ("Could not get the time of the last frame from the .log file: " ++ e
            ++ ".  Either make sure that the .log file exists or set --end"
            ++ " manually"))
      | .ok lf => pure (lastTime lf)
    | some e => pure (some e)
  if a.slabwidth.ble ⟨0, 1⟩ then
    Except.error (.value ("--slabwidth (" ++ ratRepr a.slabwidth
      ++ ") must be greater than zero"))
  else do
  let (zmin, zmax) ←
    if a.center_slab then
      if !fs.contains (GRO_FILE a) then
        Except.error (PyErr.fnf ("Could not get the box dimensions from the"
          ++ " .gro file.  No such file: '" ++ GRO_FILE a ++ "'."))
      else
        let bz := boxZ (GRO_FILE a)
        pure ((bz.sub a.slabwidth).mul ⟨1, 2⟩, (bz.add a.slabwidth).mul ⟨1, 2⟩)
    else
      match a.zmax with
      | Option.none =>
        if !fs.contains (GRO_FILE a) then
          Except.error (PyErr.fnf ("Could not get the box dimensions from the"
            ++ " .gro file.  No such file: '" ++ GRO_FILE a
            ++ "'.  Either provide the .gro file or set --zmax manually"))
        else pure (a.zmin, boxZ (GRO_FILE a))
      | some z => pure (a.zmin, z)
  if zmax.ble zmin then
    Except.error (.value ("zmax (" ++ ratRepr zmax
      ++ ") must be greater than zmin (" ++ ratRepr zmin ++ ")"))
  else do
  let bin_edges ←
    if a.discretize then
      if (zmax.sub zmin).blt a.slabwidth then
        Except.error (.value ("If --discretize is given, zmax-zmin ("
          ++ ratRepr zmax ++ "-" ++ ratRepr zmin ++ ") must be less than"
          ++ " --slabwidth (" ++ ratRepr a.slabwidth ++ ")"))
      else if !pyContains a.scripts "slab-z"
          && !pyContains a.scripts "densmap-z"
          && !(pySplitS a.scripts).contains "0"
          && !(pySplitS a.scripts).contains "2"
          && !(pySplitS a.scripts).contains "4.2"
          && !(pySplitS a.scripts).contains "7" then
        Except.error (.value ("--discretize can only be used in conjunction"
          ++ " with scripts that analyze a slab in xy plane."))
      else pure (mkBinEdges zmin zmax a.slabwidth)
    else pure []
  let nbins ←
    if pyContains a.scripts "density-z" || pyContains a.scripts "potential-z"
        || (pySplitS a.scripts).contains "0" || (pySplitS a.scripts).contains "1"
        || (pySplitS a.scripts).contains "6" then
      if !fs.contains (GRO_FILE a) then
        Except.error (PyErr.fnf ("Could not get the box dimensions from the"
          ++ " .gro file.  No such file: '" ++ GRO_FILE a ++ "'."))
      else pure (some (((boxZ (GRO_FILE a)).div a.binwidth).roundHalfEven))
    else pure Option.none
  pure ⟨endv, zmin, zmax, nbins, bin_edges⟩

/-- One token of the "Checking if input files exist..." loop (lines 698-736):
the stacked `setdefault` calls for a single requested script name or category
code.  `gmx.get_compressed_file` is evaluated (and may raise) *before* the
corresponding `setdefault`, whether or not the key is already present. -/
def buildFilesStep (fs : List String) (a : Args) (files : Dict String)
    (script : String) : Except PyErr (Dict String) := do
  let files ←
    if REQUIRE_EDR.contains script then
      match get_compressed_file fs (EDR_FILE a) with
      | .error e => Except.error (PyErr.fnf e)
      | .ok f => pure (dsetdefault files "energy" f)
    else pure files
  let files := condSet (REQUIRE_NDX.contains script)
    files "index" (NDX_FILE a)
  let files := condSet (REQUIRE_TRR.contains script)
    files "full-precision trajectory" (TRR_FILE a)
  let files := condSet (REQUIRE_XTC_WRAPPED.contains script)
    files "wrapped compressed trajectory" (XTC_FILE_WRAPPED a)
  let files := condSet (REQUIRE_XTC_UNWRAPPED.contains script)
    files "unwrapped compressed trajectory" (XTC_FILE_UNWRAPPED a)
  if script = "0" || script = "1" then
    match get_compressed_file fs (EDR_FILE a) with
    | .error e => Except.error (PyErr.fnf e)
    | .ok f =>
      let files := dsetdefault files "energy" f
      pure (dsetdefault files "full-precision trajectory" (TRR_FILE a))
  else if script = "2" then
    let files := dsetdefault files "index" (NDX_FILE a)
    let files := dsetdefault files "full-precision trajectory" (TRR_FILE a)
    pure (dsetdefault files "wrapped compressed trajectory" (XTC_FILE_WRAPPED a))
  else if script = "3" then
    pure (dsetdefault files "full-precision trajectory" (TRR_FILE a))
  else if script = "4" then
    pure (dsetdefault files "wrapped compressed trajectory" (XTC_FILE_WRAPPED a))
  else if script = "4.1" then
    pure (dsetdefault files "wrapped compressed trajectory" (XTC_FILE_WRAPPED a))
  else if script = "4.2" then
    pure (dsetdefault files "wrapped compressed trajectory" (XTC_FILE_WRAPPED a))
  else if script = "5" then
    let files := dinsert files "index" (NDX_FILE a)
    pure (dsetdefault files "unwrapped compressed trajectory"
      (XTC_FILE_UNWRAPPED a))
  else if script = "6" then
    let files := dsetdefault files "index" (NDX_FILE a)
    pure (dsetdefault files "wrapped compressed trajectory" (XTC_FILE_WRAPPED a))
  else if script = "7" then
    let files := dsetdefault files "index" (NDX_FILE a)
    pure (dsetdefault files "full-precision trajectory" (TRR_FILE a))
  else pure files

/-- The requirement set: seeded with the run-input `.tpr` file, then one
`buildFilesStep` per whitespace token of `--scripts`. -/
def buildFiles (fs : List String) (a : Args) : Except PyErr (Dict String) :=
  (pySplitS a.scripts).foldlM (buildFilesStep fs a)
    [("run input", TPR_FILE a)]

/-- The existence check over the requirement set: raise `FileNotFoundError`
for the first missing file, in dictionary order. -/
def checkFiles (fs : List String) (files : Dict String) : Except PyErr Unit :=
  match files.find? (fun p => !fs.contains p.2) with
  | some p => .error (.fnf ("No such file: '" ++ p.2 ++ "' (" ++ p.1
      ++ " file)"))
  | Option.none => .ok ()

/-- The local positional-argument groups of the script (lines 756-766).
`os.path.expandvars` on `--gmx-exe` is modelled as the identity. -/
def posargsGeneral (a : Args) : List PosArg :=
  [.str BASH_DIR, .str (lmodPath a.gmx_lmod),
   (match a.gmx_exe with | some s => .str s | Option.none => .none),
   .str a.system, .str a.settings]

/-- `posargs_trj = [begin, end, every]`. -/
def posargsTrj (a : Args) (ctx : Ctx) : List PosArg :=
  [.float a.beginv,
   (match ctx.endv with | some q => .float q | Option.none => .none),
   .float a.every]

/-- `posargs_msd = [beginfit, endfit, restart]`. -/
def posargsMsd (a : Args) : List PosArg :=
  [.float a.beginfit, .float a.endfit, .float a.restartv]

/-- `posargs_dist = [binwidth]`. -/
def posargsDist (a : Args) : List PosArg := [.float a.binwidth]

/-- `posargs_slab = [zmin, zmax]`. -/
def posargsSlab (ctx : Ctx) : List PosArg := [.float ctx.zmin, .float ctx.zmax]

/-- `nbins` as a positional argument. -/
def nbinsArg (ctx : Ctx) : PosArg :=
  match ctx.nbins with | some n => .int n | Option.none => .none

/-- The static `posargs` table (lines 768-813): ordered positional-argument
list per job script. -/
def posargsList (a : Args) (ctx : Ctx) : String → List PosArg
  | "density-z_charge" => posargsGeneral a ++ posargsTrj a ctx ++ [nbinsArg ctx]
  | "density-z_mass" => posargsGeneral a ++ posargsTrj a ctx ++ [nbinsArg ctx]
  | "density-z_number" => posargsGeneral a ++ posargsTrj a ctx ++ [nbinsArg ctx]
  | "densmap-z_gra" =>
    posargsGeneral a ++ posargsTrj a ctx ++ posargsDist a ++ posargsSlab ctx
  | "densmap-z_Li" =>
    posargsGeneral a ++ posargsTrj a ctx ++ posargsDist a ++ posargsSlab ctx
  | "densmap-z_NBT" =>
    posargsGeneral a ++ posargsTrj a ctx ++ posargsDist a ++ posargsSlab ctx
  | "densmap-z_OBT" =>
    posargsGeneral a ++ posargsTrj a ctx ++ posargsDist a ++ posargsSlab ctx
  | "densmap-z_OE" =>
    posargsGeneral a ++ posargsTrj a ctx ++ posargsDist a ++ posargsSlab ctx
  | "energy" => posargsGeneral a ++ (posargsTrj a ctx).take 2
  | "make_ndx" => posargsGeneral a
  | "msd" => posargsGeneral a ++ (posargsTrj a ctx).take 2 ++ posargsMsd a
  | "msd_electrodes" =>
    posargsGeneral a ++ (posargsTrj a ctx).take 2 ++ posargsMsd a
  | "msd_lateral-z" =>
    posargsGeneral a ++ (posargsTrj a ctx).take 2 ++ posargsMsd a
  | "msd_parallel-z" =>
    posargsGeneral a ++ (posargsTrj a ctx).take 2 ++ posargsMsd a
  | "msd_tensor" => posargsGeneral a ++ (posargsTrj a ctx).take 2 ++ posargsMsd a
  | "polystat" => posargsGeneral a ++ posargsTrj a ctx
  | "potential-z" => posargsGeneral a ++ posargsTrj a ctx ++ [nbinsArg ctx]
  | "rdf_ether-com" => posargsGeneral a ++ posargsTrj a ctx ++ posargsDist a
  | "rdf_Li" => posargsGeneral a ++ posargsTrj a ctx ++ posargsDist a
  | "rdf_Li-com" => posargsGeneral a ++ posargsTrj a ctx ++ posargsDist a
  | "rdf_NBT" => posargsGeneral a ++ posargsTrj a ctx ++ posargsDist a
  | "rdf_NTf2-com" => posargsGeneral a ++ posargsTrj a ctx ++ posargsDist a
  | "rdf_OE" => posargsGeneral a ++ posargsTrj a ctx ++ posargsDist a
  | "rdf_slab-z_Li" =>
    posargsGeneral a ++ posargsTrj a ctx ++ posargsDist a ++ posargsSlab ctx
  | "rdf_slab-z_NBT" =>
    posargsGeneral a ++ posargsTrj a ctx ++ posargsDist a ++ posargsSlab ctx
  | "rdf_slab-z_OE" =>
    posargsGeneral a ++ posargsTrj a ctx ++ posargsDist a ++ posargsSlab ctx
  | "trjconv_nojump" => posargsGeneral a ++ posargsTrj a ctx
  | "trjconv_whole" => posargsGeneral a ++ posargsTrj a ctx
  | _ => []

/-- The keys of the `posargs` dictionary, in insertion (iteration) order. -/
def posargsKeys : List String :=
  ["density-z_charge", "density-z_mass", "density-z_number", "densmap-z_gra",
   "densmap-z_Li", "densmap-z_NBT", "densmap-z_OBT", "densmap-z_OE", "energy",
   "make_ndx", "msd", "msd_electrodes", "msd_lateral-z", "msd_parallel-z",
   "msd_tensor", "polystat", "potential-z", "rdf_ether-com", "rdf_Li",
   "rdf_Li-com", "rdf_NBT", "rdf_NTf2-com", "rdf_OE", "rdf_slab-z_Li",
   "rdf_slab-z_NBT", "rdf_slab-z_OE", "trjconv_nojump", "trjconv_whole"]

/-- `_assemble_submit_cmd` (lines 243-275): sbatch baseline from the
pass-through options, defaulted `--job-name`/`--output`, job script and its
positional-argument string. -/
def assembleCmd (sbatch_opts : Dict PyVal) (pattern : String)
    (pstr : String → String) (job_script : String) : String :=
  let sbatch := "sbatch " ++ optdict2str sbatch_opts ["None", "False"] ["True"]
  let submit := sbatch
  let submit :=
    if !dmem sbatch_opts "job-name" && !dmem sbatch_opts "J" then
      submit ++ " --job-name " ++ pattern ++ "_" ++ job_script
    else submit
  let submit :=
    if !dmem sbatch_opts "output" && !dmem sbatch_opts "o" then
      submit ++ " --output " ++ pattern ++ "_" ++ job_script ++ "_slurm-%j.out"
    else submit
  submit ++ " " ++ job_script ++ ".sh " ++ pstr job_script

/-- `_submit` (lines 347-385): skip electrode-only scripts on systems without
electrodes, dispatch slab scripts to `_submit_discretized` under
`--discretize`, and otherwise execute one assembled submit command. -/
def submitOne (a : Args) (ctx : Ctx) (pattern : String) (pstr : String → String)
    (sbatch_opts : Dict PyVal) (job_script : String) :
    Except PyErr (List SubEntry) :=
  if !pyContains a.system "gra"
      && (job_script = "msd_electrodes" || job_script = "densmap-z_gra") then
    .ok []
  else if a.discretize
      && (pyContains job_script "densmap-z" || pyContains job_script "rdf_slab-z") then
    match gmx_submit_discretized sbatch_opts job_script ctx.bin_edges pattern
      (posargsGeneral a) (posargsTrj a ctx) (posargsDist a) with
    | .error m => .error (.value m)
    | .ok cmds => .ok (cmds.map (fun c => ⟨job_script, sbatch_opts, c⟩))
  else .ok [⟨job_script, sbatch_opts, assembleCmd sbatch_opts pattern pstr job_script⟩]

/-- The `elif` chain choosing the sbatch options of a dependent submission in
the bulk block (lines 873-880). -/
def chooseOpts (args_sbatch depN depW depU : Dict PyVal) (s : String) :
    Dict PyVal :=
  if REQUIRE_XTC_UNWRAPPED.contains s then depU
  else if REQUIRE_XTC_WRAPPED.contains s then depW
  else if REQUIRE_NDX.contains s then depN
  else args_sbatch

/-- The bulk block for category codes `0`/`1` (lines 825-881): submit
`make_ndx`, `trjconv_whole` and `trjconv_nojump` in order, extracting each
job ID from the captured stdout and building a dependency-annotated option
copy for the next link; then submit every remaining script with the options
chosen by `chooseOpts` (skipping slab scripts unless `0` was requested). -/
def block01 (oracle : String → String) (a : Args) (ctx : Ctx)
    (pattern : String) (pstr : String → String)
    (args_sbatch no_dep : Dict PyVal) : SubmitRes :=
  let split := pySplitS a.scripts
  let cmd1 := assembleCmd args_sbatch pattern pstr "make_ndx"
  let e1 : SubEntry := ⟨"make_ndx", args_sbatch, cmd1⟩
  match getJobId (oracle cmd1) with
  | .error err => ([e1], some err)
  | .ok idN =>
    let depN := dep_opts no_dep idN
    let cmd2 := assembleCmd depN pattern pstr "trjconv_whole"
    let e2 : SubEntry := ⟨"trjconv_whole", depN, cmd2⟩
    match getJobId (oracle cmd2) with
    | .error err => ([e1, e2], some err)
    | .ok idW =>
      let depW := dep_opts no_dep idW
      let cmd3 := assembleCmd depW pattern pstr "trjconv_nojump"
      let e3 : SubEntry := ⟨"trjconv_nojump", depW, cmd3⟩
      match getJobId (oracle cmd3) with
      | .error err => ([e1, e2, e3], some err)
      | .ok idU =>
        let depU := dep_opts no_dep idU
        seqRes ([e1, e2, e3], Option.none) (fun _ =>
          resFoldScripts posargsKeys (fun s =>
            if !split.contains "0"
                && (pyContains s "densmap-z" || pyContains s "rdf_slab-z") then
              .ok []
            else if s = "make_ndx" || s = "trjconv_whole"
                || s = "trjconv_nojump" then
              .ok []
            else submitOne a ctx pattern pstr
              (chooseOpts args_sbatch depN depW depU s) s))

/-- The block for category code `3` (lines 887-899): `trjconv_whole`, then
`trjconv_nojump` depending on it. -/
def block3 (oracle : String → String) (pattern : String)
    (pstr : String → String) (args_sbatch no_dep : Dict PyVal) : SubmitRes :=
  let cmd1 := assembleCmd args_sbatch pattern pstr "trjconv_whole"
  let e1 : SubEntry := ⟨"trjconv_whole", args_sbatch, cmd1⟩
  match getJobId (oracle cmd1) with
  | .error err => ([e1], some err)
  | .ok id =>
    let dep := dep_opts no_dep id
    let cmd2 := assembleCmd dep pattern pstr "trjconv_nojump"
    ([e1, ⟨"trjconv_nojump", dep, cmd2⟩], Option.none)

/-- The "Submitting job(s) to Slurm..." phase (lines 818-929): single scripts
by name, then the category-code blocks, in source order. -/
def submitPhase (oracle : String → String) (a : Args) (ctx : Ctx)
    (args_sbatch : Dict PyVal) : SubmitRes :=
  let pattern := infilePattern a
  let pstr := fun s => posargs2str (posargsList a ctx s) 3
  let no_dep := dpop (dpop args_sbatch "dependency") "d"
  let split := pySplitS a.scripts
  let sub := fun (opts : Dict PyVal) (s : String) =>
    submitOne a ctx pattern pstr opts s
  let r := resFoldScripts posargsKeys (fun s =>
    if split.contains s then sub args_sbatch s else .ok [])
  let r := seqRes r (fun _ =>
    if split.contains "0" || split.contains "1" then
      block01 oracle a ctx pattern pstr args_sbatch no_dep
    else ([], Option.none))
  let r := seqRes r (fun _ =>
    if split.contains "2" then
      resFoldScripts posargsKeys (fun s =>
        if pyContains s "densmap-z" || pyContains s "rdf_slab-z" then
          sub args_sbatch s
        else .ok [])
    else ([], Option.none))
  let r := seqRes r (fun _ =>
    if split.contains "3" then block3 oracle pattern pstr args_sbatch no_dep
    else ([], Option.none))
  let r := seqRes r (fun _ =>
    if split.contains "4" then
      resFoldScripts posargsKeys (fun s =>
        if pyContains s "rdf" then sub args_sbatch s else .ok [])
    else ([], Option.none))
  let r := seqRes r (fun _ =>
    if split.contains "4.1" then
      resFoldScripts posargsKeys (fun s =>
        if pyContains s "rdf" && !pyContains s "slab-z" then sub args_sbatch s
        else .ok [])
    else ([], Option.none))
  let r := seqRes r (fun _ =>
    if split.contains "4.2" then
      resFoldScripts posargsKeys (fun s =>
        if pyContains s "rdf_slab-z" then sub args_sbatch s else .ok [])
    else ([], Option.none))
  let r := seqRes r (fun _ =>
    if split.contains "5" then
      resFoldScripts posargsKeys (fun s =>
        if pyContains s "msd" then sub args_sbatch s else .ok [])
    else ([], Option.none))
  let r := seqRes r (fun _ =>
    if split.contains "6" then
      resFoldScripts posargsKeys (fun s =>
        if pyContains s "density-z" || pyContains s "potential-z" then
          sub args_sbatch s
        else .ok [])
    else ([], Option.none))
  let r := seqRes r (fun _ =>
    if split.contains "7" then
      resFoldScripts posargsKeys (fun s =>
        if pyContains s "densmap-z" then sub args_sbatch s else .ok [])
    else ([], Option.none))
  r

/-- The whole `__main__` block after option parsing: argument processing,
file-prerequisite validation, the lmod source-file check, then the submit
phase.  No submit command is executed before all checks pass. -/
def main (fs : List String) (boxZ : String → Q) (lastTime : String → Option Q)
    (oracle : String → String) (a : Args) (args_sbatch : Dict PyVal) :
    SubmitRes :=
  match processArgs fs boxZ lastTime a with
  | .error e => ([], some e)
  | .ok ctx =>
    match buildFiles fs a with
    | .error e => ([], some e)
    | .ok files =>
      match checkFiles fs files with
      | .error e => ([], some e)
      | .ok _ =>
        if !fs.contains (lmodPath a.gmx_lmod) then
          ([], some (.fnf ("No such file: '" ++ lmodPath a.gmx_lmod
            ++ "'.  This might happen if you change the directory structure of"
            ++ " this project or if you have not given a source file relative"
            ++ " to the lmod directory of this project with --gmx-lmod")))
        else submitPhase oracle a ctx args_sbatch

end Gmx

/-! ## The mdt analysis submit script (`submit_mdt_analyses_lintf2_ether.py`) -/

namespace Mdt

/-- The resolved known options of the mdt analysis submit script. -/
structure Args where
  system : String
  settings : String
  scripts : String
  beginv : Int
  endv : Int
  every : Int
  nblocks : Int
  restartv : Int
  binwidth : Q
  cutoff : Q
  atom_index : Int
  intermittency : Int
  lag_compare : Int
  min_block_size : Int
  max_gap_size : Int
  zmin : Q
  zmax : Option Q
  slabwidth : Q
  discretize : Bool
  center_slab : Bool
  py_lmod : String
  py_exe : Option String
  mdt_path : String

/-- `${settings}_${system}`. -/
def infilePattern (a : Args) : String := a.settings ++ "_" ++ a.system

/-- `${settings}_out_${system}`. -/
def outfilePattern (a : Args) : String := a.settings ++ "_out_" ++ a.system

/-- `${settings}_${system}.tpr`. -/
def TPR_FILE (a : Args) : String := infilePattern a ++ ".tpr"

/-- `${settings}_out_${system}.edr`. -/
def EDR_FILE (a : Args) : String := outfilePattern a ++ ".edr"

/-- `${settings}_out_${system}.gro`. -/
def GRO_FILE (a : Args) : String := outfilePattern a ++ ".gro"

/-- `${settings}_out_${system}.trr`. -/
def TRR_FILE (a : Args) : String := outfilePattern a ++ ".trr"

/-- `${settings}_out_${system}_pbc_whole_mol.xtc`. -/
def XTC_FILE_WRAPPED (a : Args) : String :=
  outfilePattern a ++ "_pbc_whole_mol.xtc"

/-- `${settings}_out_${system}_pbc_whole_mol_nojump.xtc`. -/
def XTC_FILE_UNWRAPPED (a : Args) : String :=
  outfilePattern a ++ "_pbc_whole_mol_nojump.xtc"

/-- `${settings}_${system}_discrete-z_Li_dtrj.npy`. -/
def DTRJ_DISCRETE_Z_FILE (a : Args) : String :=
  infilePattern a ++ "_discrete-z_Li_dtrj.npy"

/-- `${settings}_${system}_renewal_events_Li-ether_dtrj.npy`. -/
def DTRJ_RENEWAL_ETHER_FILE (a : Args) : String :=
  infilePattern a ++ "_renewal_events_Li-ether_dtrj.npy"

/-- `${settings}_${system}_renewal_events_Li-NTf2_dtrj.npy`. -/
def DTRJ_RENEWAL_TFSI_FILE (a : Args) : String :=
  infilePattern a ++ "_renewal_events_Li-NTf2_dtrj.npy"

/-- `${settings}_${system}_density-z_number_Li_binsA.txt.gz`. -/
def BIN_FILE (a : Args) : String :=
  infilePattern a ++ "_density-z_number_Li_binsA.txt.gz"

/-- Scripts requiring the run-input `.tpr` file. -/
def REQUIRE_TPR : List String :=
  ["axial_hex_dist_1nn_Li", "axial_hex_dist_1nn_NBT", "axial_hex_dist_1nn_OBT",
   "axial_hex_dist_1nn_OE", "axial_hex_dist_2nn_Li", "axial_hex_dist_2nn_NBT",
   "axial_hex_dist_2nn_OBT", "axial_hex_dist_2nn_OE", "contact_hist_Li-O",
   "contact_hist_Li-OBT", "contact_hist_Li-OE", "contact_hist_O-Li",
   "contact_hist_OBT-Li", "contact_hist_OE-Li",
   "contact_hist_at_pos_change_Li-OBT", "contact_hist_at_pos_change_Li-OE",
   "contact_hist_slab-z_Li-OBT", "contact_hist_slab-z_Li-OE",
   "create_mda_universe", "discrete-hex_Li", "discrete-hex_NBT",
   "discrete-hex_OBT", "discrete-hex_OE", "discrete-z_Li",
   "lifetime_autocorr_Li-ether", "lifetime_autocorr_Li-NTf2",
   "lifetime_autocorr_Li-OBT", "lifetime_autocorr_Li-OE",
   "lig_change_at_pos_change_Li-OBT", "lig_change_at_pos_change_Li-OE",
   "lig_change_at_pos_change_blocks_Li-OBT",
   "lig_change_at_pos_change_blocks_Li-OE",
   "lig_change_at_pos_change_blocks_hist_Li-OBT",
   "lig_change_at_pos_change_blocks_hist_Li-OE", "msd_ether", "msd_Li",
   "msd_NBT", "msd_NTf2", "msd_OBT", "msd_OE", "msd_layer_ether",
   "msd_layer_Li", "msd_layer_NBT", "msd_layer_NTf2", "msd_layer_OBT",
   "msd_layer_OE", "msd_at_coord_change_Li-ether",
   "msd_at_coord_change_Li-NTf2", "renewal_events_Li-ether",
   "renewal_events_Li-NTf2", "subvolume_charge", "topo_map_Li-OBT",
   "topo_map_Li-OE"]

/-- Scripts requiring the `.edr` energy file. -/
def REQUIRE_EDR : List String := ["energy_dist"]

/-- Scripts requiring the `.trr` full-precision trajectory.  (The source
lists these names with a spurious `.py` extension, so no key of the
`posargs` table is ever a member; transcribed faithfully.) -/
def REQUIRE_TRR : List String :=
  ["attribute_hist_ether.py", "attribute_hist_Li.py", "attribute_hist_NBT.py",
   "attribute_hist_NTf2.py", "attribute_hist_OBT.py", "attribute_hist_OE.py"]

/-- Scripts requiring the wrapped compressed trajectory. -/
def REQUIRE_XTC_WRAPPED : List String :=
  ["axial_hex_dist_1nn_Li", "axial_hex_dist_1nn_NBT", "axial_hex_dist_1nn_OBT",
   "axial_hex_dist_1nn_OE", "axial_hex_dist_2nn_Li", "axial_hex_dist_2nn_NBT",
   "axial_hex_dist_2nn_OBT", "axial_hex_dist_2nn_OE", "contact_hist_Li-O",
   "contact_hist_Li-OBT", "contact_hist_Li-OE", "contact_hist_O-Li",
   "contact_hist_OBT-Li", "contact_hist_OE-Li",
   "contact_hist_at_pos_change_Li-OBT", "contact_hist_at_pos_change_Li-OE",
   "contact_hist_slab-z_Li-OBT", "contact_hist_slab-z_Li-OE",
   "create_mda_universe", "discrete-hex_Li", "discrete-hex_NBT",
   "discrete-hex_OBT", "discrete-hex_OE", "discrete-z_Li",
   "lifetime_autocorr_Li-ether", "lifetime_autocorr_Li-NTf2",
   "lifetime_autocorr_Li-OBT", "lifetime_autocorr_Li-OE",
   "lig_change_at_pos_change_Li-OBT", "lig_change_at_pos_change_Li-OE",
   "lig_change_at_pos_change_blocks_Li-OBT",
   "lig_change_at_pos_change_blocks_Li-OE",
   "lig_change_at_pos_change_blocks_hist_Li-OBT",
   "lig_change_at_pos_change_blocks_hist_Li-OE", "subvolume_charge",
   "topo_map_Li-OBT", "topo_map_Li-OE"]

/-- Scripts requiring the unwrapped compressed trajectory. -/
def REQUIRE_XTC_UNWRAPPED : List String :=
  ["create_mda_universe", "msd_ether", "msd_Li", "msd_NBT", "msd_NTf2",
   "msd_OBT", "msd_OE", "msd_layer_ether", "msd_layer_Li", "msd_layer_NBT",
   "msd_layer_NTf2", "msd_layer_OBT", "msd_layer_OE",
   "msd_at_coord_change_Li-ether", "msd_at_coord_change_Li-NTf2",
   "renewal_events_Li-ether", "renewal_events_Li-NTf2"]

/-- Scripts requiring the spatially discretised trajectory. -/
def REQUIRE_DTRJ_DISCRETE_Z : List String :=
  ["discrete-z_Li_back_jump_prob_discrete", "discrete-z_Li_kaplan_meier_discrete",
   "discrete-z_Li_state_lifetime_discrete",
   "renewal_events_Li-ether_back_jump_prob_discrete",
   "renewal_events_Li-ether_kaplan_meier_discrete",
   "renewal_events_Li-ether_state_lifetime_discrete",
   "renewal_events_Li-NTf2_back_jump_prob_discrete",
   "renewal_events_Li-NTf2_kaplan_meier_discrete",
   "renewal_events_Li-NTf2_state_lifetime_discrete"]

/-- Scripts requiring the Li-ether renewal-event trajectory. -/
def REQUIRE_DTRJ_RENEWAL_ETHER : List String :=
  ["renewal_events_Li-ether_back_jump_prob",
   "renewal_events_Li-ether_back_jump_prob_discrete",
   "renewal_events_Li-ether_kaplan_meier",
   "renewal_events_Li-ether_kaplan_meier_discrete",
   "renewal_events_Li-ether_state_lifetime",
   "renewal_events_Li-ether_state_lifetime_discrete"]

/-- Scripts requiring the Li-TFSI renewal-event trajectory. -/
def REQUIRE_DTRJ_RENEWAL_TFSI : List String :=
  ["renewal_events_Li-NTf2_back_jump_prob",
   "renewal_events_Li-NTf2_back_jump_prob_discrete",
   "renewal_events_Li-NTf2_kaplan_meier",
   "renewal_events_Li-NTf2_kaplan_meier_discrete",
   "renewal_events_Li-NTf2_state_lifetime",
   "renewal_events_Li-NTf2_state_lifetime_discrete"]

/-- Scripts requiring the number-density bin file. -/
def REQUIRE_BIN_FILE : List String :=
  ["contact_hist_at_pos_change_Li-OBT", "contact_hist_at_pos_change_Li-OE",
   "discrete-z_Li", "lig_change_at_pos_change_Li-OBT",
   "lig_change_at_pos_change_Li-OE", "lig_change_at_pos_change_blocks_Li-OBT",
   "lig_change_at_pos_change_blocks_Li-OE",
   "lig_change_at_pos_change_blocks_hist_Li-OBT",
   "lig_change_at_pos_change_blocks_hist_Li-OE", "msd_layer_ether",
   "msd_layer_Li", "msd_layer_NBT", "msd_layer_NTf2", "msd_layer_OBT",
   "msd_layer_OE"]

/-- Results of the "Processing parsed arguments" phase. -/
structure Ctx where
  zmin : Q
  zmax : Q
  bin_edges : List Q

/-- The "Processing parsed arguments" phase (lines 919-979). -/
def processArgs (fs : List String) (boxZ : String → Q) (a : Args) :
    Except PyErr Ctx := do
  if a.binwidth.ble ⟨0, 1⟩ then
    Except.error (.value ("--binwidth (" ++ ratRepr a.binwidth
      ++ ") must be greater than zero"))
  else do
  if a.slabwidth.ble ⟨0, 1⟩ then
    Except.error (.value ("--slabwidth (" ++ ratRepr a.slabwidth
      ++ ") must be greater than zero"))
  else do
  let (zmin, zmax) ←
    if a.center_slab then
      if !fs.contains (GRO_FILE a) then
        Except.error (PyErr.fnf ("Could not get the box dimensions from the"
          ++ " .gro file.  No such file: '" ++ GRO_FILE a ++ "'."))
      else
        let bz := boxZ (GRO_FILE a)
        pure ((bz.sub a.slabwidth).mul ⟨1, 2⟩, (bz.add a.slabwidth).mul ⟨1, 2⟩)
    else
      match a.zmax with
      | Option.none =>
        if !fs.contains (GRO_FILE a) then
          Except.error (PyErr.fnf ("Could not get the box dimensions from the"
            ++ " .gro file.  No such file: '" ++ GRO_FILE a
            ++ "'.  Either provide the .gro file or set --zmax manually"))
        else pure (a.zmin, boxZ (GRO_FILE a))
      | some z => pure (a.zmin, z)
  if zmax.ble zmin then
    Except.error (.value ("zmax (" ++ ratRepr zmax
      ++ ") must be greater than zmin (" ++ ratRepr zmin ++ ")"))
  else do
  let bin_edges ←
    if a.discretize then
      if (zmax.sub zmin).blt a.slabwidth then
        Except.error (.value ("If --discretize is given, zmax-zmin ("
          ++ ratRepr zmax ++ "-" ++ ratRepr zmin ++ ") must be less than"
          ++ " --slabwidth (" ++ ratRepr a.slabwidth ++ ")"))
      else if !pyContains a.scripts "slab-z"
          && !pyContains a.scripts "axial_hex_dist"
          && !pyContains a.scripts "discrete-hex"
          && !(pySplitS a.scripts).contains "0"
          && !(pySplitS a.scripts).contains "2"
          && !(pySplitS a.scripts).contains "4"
          && !(pySplitS a.scripts).contains "5"
          && !(pySplitS a.scripts).contains "6"
          && !(pySplitS a.scripts).contains "6.2" then
        Except.error (.value ("--discretize can only be used in conjunction"
          ++ " with scripts that analyze a slab in xy plane."))
      else pure (mkBinEdges zmin zmax a.slabwidth)
    else pure []
  pure ⟨zmin, zmax, bin_edges⟩

/-- The script-name part of one token of the "Checking if input files
exist..." loop (lines 983-1045): the stacked membership-guarded `setdefault`
calls, including the fallible `.edr` resolution. -/
def buildFilesPhase (fs : List String) (a : Args) (files : Dict String)
    (script : String) : Except PyErr (Dict String) := do
  let files := condSet (REQUIRE_TPR.contains script)
    files "run input" (TPR_FILE a)
  let files ←
    if REQUIRE_EDR.contains script then
      match get_compressed_file fs (EDR_FILE a) with
      | .error e => Except.error (PyErr.fnf e)
      | .ok f => pure (dsetdefault files "energy" f)
    else pure files
  let files := condSet (REQUIRE_TRR.contains script)
    files "full-precision trajectory" (TRR_FILE a)
  let files := condSet (REQUIRE_XTC_WRAPPED.contains script)
    files "wrapped compressed trajectory" (XTC_FILE_WRAPPED a)
  let files := condSet (REQUIRE_XTC_UNWRAPPED.contains script)
    files "unwrapped compressed trajectory" (XTC_FILE_UNWRAPPED a)
  let files := condSet (REQUIRE_DTRJ_DISCRETE_Z.contains script)
    files "discretized trajectory (spatial z)" (DTRJ_DISCRETE_Z_FILE a)
  let files := condSet (REQUIRE_DTRJ_RENEWAL_ETHER.contains script)
    files "discretized trajectory (renewal Li-ether)" (DTRJ_RENEWAL_ETHER_FILE a)
  let files := condSet (REQUIRE_DTRJ_RENEWAL_TFSI.contains script)
    files "discretized trajectory (renewal Li-TFSI)" (DTRJ_RENEWAL_TFSI_FILE a)
  let files := condSet (REQUIRE_BIN_FILE.contains script)
    files "bin" (BIN_FILE a)
  pure files

/-- The category-code part of the same loop token (lines 1046-1123): the
`elif` chain over the numbered category codes, all branches pure
`setdefault` chains. -/
def buildFilesCat (a : Args) (files : Dict String) (script : String) :
    Dict String :=
  if script = "0" || script = "1" then
    let files := dsetdefault files "run input" (TPR_FILE a)
    let files := dsetdefault files "wrapped compressed trajectory"
      (XTC_FILE_WRAPPED a)
    let files := dsetdefault files "unwrapped compressed trajectory"
      (XTC_FILE_UNWRAPPED a)
    (dsetdefault files "bin" (BIN_FILE a))
  else if script = "2" then
    let files := dsetdefault files "run input" (TPR_FILE a)
    (dsetdefault files "wrapped compressed trajectory" (XTC_FILE_WRAPPED a))
  else if script = "3" then
    let files := dsetdefault files "run input" (TPR_FILE a)
    let files := dsetdefault files "wrapped compressed trajectory"
      (XTC_FILE_WRAPPED a)
    (dsetdefault files "bin" (BIN_FILE a))
  else if script = "4" then
    let files := dsetdefault files "run input" (TPR_FILE a)
    (dsetdefault files "wrapped compressed trajectory" (XTC_FILE_WRAPPED a))
  else if script = "5" then
    let files := dsetdefault files "run input" (TPR_FILE a)
    (dsetdefault files "wrapped compressed trajectory" (XTC_FILE_WRAPPED a))
  else if script = "6" then
    let files := dsetdefault files "run input" (TPR_FILE a)
    let files := dsetdefault files "wrapped compressed trajectory"
      (XTC_FILE_WRAPPED a)
    (dsetdefault files "bin" (BIN_FILE a))
  else if script = "6.1" then
    let files := dsetdefault files "run input" (TPR_FILE a)
    (dsetdefault files "wrapped compressed trajectory" (XTC_FILE_WRAPPED a))
  else if script = "6.2" then
    let files := dsetdefault files "run input" (TPR_FILE a)
    (dsetdefault files "wrapped compressed trajectory" (XTC_FILE_WRAPPED a))
  else if script = "6.3" then
    let files := dsetdefault files "run input" (TPR_FILE a)
    let files := dsetdefault files "wrapped compressed trajectory"
      (XTC_FILE_WRAPPED a)
    (dsetdefault files "bin" (BIN_FILE a))
  else if script = "7" then
    let files := dsetdefault files "run input" (TPR_FILE a)
    let files := dsetdefault files "wrapped compressed trajectory"
      (XTC_FILE_WRAPPED a)
    (dsetdefault files "bin" (BIN_FILE a))
  else if script = "8" then
    let files := dsetdefault files "run input" (TPR_FILE a)
    (dsetdefault files "wrapped compressed trajectory" (XTC_FILE_WRAPPED a))
  else if script = "9" then
    let files := dsetdefault files "run input" (TPR_FILE a)
    let files := dsetdefault files "unwrapped compressed trajectory"
      (XTC_FILE_UNWRAPPED a)
    (dsetdefault files "bin" (BIN_FILE a))
  else if script = "9.1" then
    let files := dsetdefault files "run input" (TPR_FILE a)
    (dsetdefault files "unwrapped compressed trajectory"
      (XTC_FILE_UNWRAPPED a))
  else if script = "9.2" then
    let files := dsetdefault files "run input" (TPR_FILE a)
    let files := dsetdefault files "unwrapped compressed trajectory"
      (XTC_FILE_UNWRAPPED a)
    (dsetdefault files "bin" (BIN_FILE a))
  else if script = "9.3" then
    let files := dsetdefault files "run input" (TPR_FILE a)
    (dsetdefault files "unwrapped compressed trajectory"
      (XTC_FILE_UNWRAPPED a))
  else if script = "10" then
    let files := dsetdefault files "run input" (TPR_FILE a)
    (dsetdefault files "wrapped compressed trajectory" (XTC_FILE_WRAPPED a))
  else if script = "11" then
    let files := dsetdefault files "run input" (TPR_FILE a)
    let files := dsetdefault files "unwrapped compressed trajectory"
      (XTC_FILE_UNWRAPPED a)
    (dsetdefault files "discretized trajectory (spatial z)"
      (DTRJ_DISCRETE_Z_FILE a))
  else if script = "11.1" then
    let files := dsetdefault files "run input" (TPR_FILE a)
    (dsetdefault files "unwrapped compressed trajectory"
      (XTC_FILE_UNWRAPPED a))
  else if script = "11.2" then
    let files := dsetdefault files "discretized trajectory (spatial z)"
      (DTRJ_DISCRETE_Z_FILE a)
    let files := dsetdefault files "discretized trajectory (renewal Li-ether)"
      (DTRJ_RENEWAL_ETHER_FILE a)
    (dsetdefault files "discretized trajectory (renewal Li-TFSI)"
      (DTRJ_RENEWAL_TFSI_FILE a))
  else if script = "11.3" then
    let files := dsetdefault files "discretized trajectory (renewal Li-ether)"
      (DTRJ_RENEWAL_ETHER_FILE a)
    (dsetdefault files "discretized trajectory (renewal Li-TFSI)"
      (DTRJ_RENEWAL_TFSI_FILE a))
  else if script = "11.4" then
    let files := dsetdefault files "discretized trajectory (spatial z)"
      (DTRJ_DISCRETE_Z_FILE a)
    let files := dsetdefault files "discretized trajectory (renewal Li-ether)"
      (DTRJ_RENEWAL_ETHER_FILE a)
    (dsetdefault files "discretized trajectory (renewal Li-TFSI)"
      (DTRJ_RENEWAL_TFSI_FILE a))
  else files

/-- One token of the "Checking if input files exist..." loop
(lines 983-1123): the script-name phase followed by the category chain. -/
def buildFilesStep (fs : List String) (a : Args) (files : Dict String)
    (script : String) : Except PyErr (Dict String) := do
  let files ← buildFilesPhase fs a files script
  pure (buildFilesCat a files script)

/-- The requirement set of the mdt script: starts *empty* (unlike the gmx
script) and accumulates one `buildFilesStep` per whitespace token of
`--scripts`.  Category codes `12` and `13` add nothing. -/
def buildFiles (fs : List String) (a : Args) : Except PyErr (Dict String) :=
  (pySplitS a.scripts).foldlM (buildFilesStep fs a) []

/-- The numbered category codes whose branch of the category chain adds the
run-input file (categories `11.2`, `11.3`, `11.4`, `12` and `13` do not). -/
def tprCats : List String :=
  ["0", "1", "2", "3", "4", "5", "6", "6.1", "6.2", "6.3", "7", "8", "9",
   "9.1", "9.2", "9.3", "10", "11", "11.1"]

/-- Whether one `--scripts` token makes the requirement loop of the mdt
submit script add the run-input file. -/
def addsTpr (s : String) : Bool :=
  REQUIRE_TPR.contains s || tprCats.contains s

/-- `os.path.splitext` for the plain file names used here (no directory
separators, nonempty stem). -/
def splitext (f : String) : String × String :=
  let cs := f.data
  let extTail := (cs.reverse.takeWhile (fun c => c ≠ '.')).reverse
  if extTail.length = cs.length then (f, "")
  else (⟨cs.take (cs.length - extTail.length - 1)⟩,
    ⟨cs.drop (cs.length - extTail.length - 1)⟩)

/-- The `.npy` → `.npz` compression fallback of the existence check: a
missing `.npy` requirement is tolerated when the `.npz` sibling exists. -/
def npzFallback (fs : List String) (f : String) : Bool :=
  ((splitext f).2 == ".npy") && fs.contains ((splitext f).1 ++ ".npz")

/-- The existence check (lines 1124-1135): raise for the first requirement
that neither exists nor has its `.npz` sibling. -/
def checkFiles (fs : List String) (files : Dict String) : Except PyErr Unit :=
  match files.find? (fun p => !fs.contains p.2 && !npzFallback fs p.2) with
  | some p => .error (.fnf ("No such file: '" ++ p.2 ++ "' (" ++ p.1
      ++ " file)"))
  | Option.none => .ok ()

/-- `posargs_general` (lines 1153-1160); `os.path.abspath` and
`os.path.expandvars` on `--mdt-path`/`--py-exe` are modelled as the
identity. -/
def posargsGeneral (a : Args) : List PosArg :=
  [.str BASH_DIR, .str (lmodPath a.py_lmod),
   (match a.py_exe with | some s => .str s | Option.none => .none),
   .str a.mdt_path, .str a.system, .str a.settings]

/-- `posargs_trj = [begin, end, every, nblocks, restart]` (integers). -/
def posargsTrj (a : Args) : List PosArg :=
  [.int a.beginv, .int a.endv, .int a.every, .int a.nblocks, .int a.restartv]

/-- `posargs_dist = [binwidth]`. -/
def posargsDist (a : Args) : List PosArg := [.float a.binwidth]

/-- `posargs_contact = [cutoff]`. -/
def posargsContact (a : Args) : List PosArg := [.float a.cutoff]

/-- `posargs_discrete = [intermittency, lag_compare, min_block_size,
max_gap_size]`. -/
def posargsDiscrete (a : Args) : List PosArg :=
  [.int a.intermittency, .int a.lag_compare, .int a.min_block_size,
   .int a.max_gap_size]

/-- `posargs_atom = [atom_index]`. -/
def posargsAtom (a : Args) : List PosArg := [.int a.atom_index]

/-- `posargs_slab = [zmin, zmax]`. -/
def posargsSlab (ctx : Ctx) : List PosArg := [.float ctx.zmin, .float ctx.zmax]

/-- The static `posargs` table (lines 1179-1375). -/
def posargsList (a : Args) (ctx : Ctx) : String → List PosArg
  | "attribute_hist_ether" => posargsGeneral a ++ (posargsTrj a).take 3
  | "attribute_hist_Li" => posargsGeneral a ++ (posargsTrj a).take 3
  | "attribute_hist_NBT" => posargsGeneral a ++ (posargsTrj a).take 3
  | "attribute_hist_NTf2" => posargsGeneral a ++ (posargsTrj a).take 3
  | "attribute_hist_OBT" => posargsGeneral a ++ (posargsTrj a).take 3
  | "attribute_hist_OE" => posargsGeneral a ++ (posargsTrj a).take 3
  | "axial_hex_dist_1nn_Li" =>
    posargsGeneral a ++ (posargsTrj a).take 3 ++ posargsSlab ctx
  | "axial_hex_dist_1nn_NBT" =>
    posargsGeneral a ++ (posargsTrj a).take 3 ++ posargsSlab ctx
  | "axial_hex_dist_1nn_OBT" =>
    posargsGeneral a ++ (posargsTrj a).take 3 ++ posargsSlab ctx
  | "axial_hex_dist_1nn_OE" =>
    posargsGeneral a ++ (posargsTrj a).take 3 ++ posargsSlab ctx
  | "axial_hex_dist_2nn_Li" =>
    posargsGeneral a ++ (posargsTrj a).take 3 ++ posargsSlab ctx
  | "axial_hex_dist_2nn_NBT" =>
    posargsGeneral a ++ (posargsTrj a).take 3 ++ posargsSlab ctx
  | "axial_hex_dist_2nn_OBT" =>
    posargsGeneral a ++ (posargsTrj a).take 3 ++ posargsSlab ctx
  | "axial_hex_dist_2nn_OE" =>
    posargsGeneral a ++ (posargsTrj a).take 3 ++ posargsSlab ctx
  | "contact_hist_Li-O" =>
    posargsGeneral a ++ (posargsTrj a).take 3 ++ posargsContact a
  | "contact_hist_Li-OBT" =>
    posargsGeneral a ++ (posargsTrj a).take 3 ++ posargsContact a
  | "contact_hist_Li-OE" =>
    posargsGeneral a ++ (posargsTrj a).take 3 ++ posargsContact a
  | "contact_hist_O-Li" =>
    posargsGeneral a ++ (posargsTrj a).take 3 ++ posargsContact a
  | "contact_hist_OBT-Li" =>
    posargsGeneral a ++ (posargsTrj a).take 3 ++ posargsContact a
  | "contact_hist_OE-Li" =>
    posargsGeneral a ++ (posargsTrj a).take 3 ++ posargsContact a
  | "contact_hist_at_pos_change_Li-OBT" =>
    posargsGeneral a ++ (posargsTrj a).take 3 ++ posargsContact a
  | "contact_hist_at_pos_change_Li-OE" =>
    posargsGeneral a ++ (posargsTrj a).take 3 ++ posargsContact a
  | "contact_hist_slab-z_Li-OBT" =>
    posargsGeneral a ++ (posargsTrj a).take 3 ++ posargsContact a
      ++ posargsSlab ctx
  | "contact_hist_slab-z_Li-OE" =>
    posargsGeneral a ++ (posargsTrj a).take 3 ++ posargsContact a
      ++ posargsSlab ctx
  | "create_mda_universe" =>
    (posargsGeneral a).take 3 ++ (posargsGeneral a).drop 4
  | "discrete-hex_Li" => posargsGeneral a ++ posargsTrj a ++ posargsSlab ctx
  | "discrete-hex_NBT" => posargsGeneral a ++ posargsTrj a ++ posargsSlab ctx
  | "discrete-hex_OBT" => posargsGeneral a ++ posargsTrj a ++ posargsSlab ctx
  | "discrete-hex_OE" => posargsGeneral a ++ posargsTrj a ++ posargsSlab ctx
  | "discrete-z_Li" => posargsGeneral a ++ (posargsTrj a).take 3
  | "discrete-z_Li_back_jump_prob_discrete" => posargsGeneral a
  | "discrete-z_Li_kaplan_meier_discrete" => posargsGeneral a
  | "discrete-z_Li_state_lifetime_discrete" =>
    posargsGeneral a ++ [.int a.restartv]
  | "energy_dist" => posargsGeneral a ++ (posargsTrj a).take 3
  | "lifetime_autocorr_Li-ether" =>
    posargsGeneral a ++ posargsTrj a ++ posargsContact a
      ++ [.int a.intermittency]
  | "lifetime_autocorr_Li-NTf2" =>
    posargsGeneral a ++ posargsTrj a ++ posargsContact a
      ++ [.int a.intermittency]
  | "lifetime_autocorr_Li-OBT" =>
    posargsGeneral a ++ posargsTrj a ++ posargsContact a
      ++ [.int a.intermittency]
  | "lifetime_autocorr_Li-OE" =>
    posargsGeneral a ++ posargsTrj a ++ posargsContact a
      ++ [.int a.intermittency]
  | "lig_change_at_pos_change_Li-OBT" =>
    posargsGeneral a ++ (posargsTrj a).take 3 ++ posargsContact a
      ++ [.int a.lag_compare]
  | "lig_change_at_pos_change_Li-OE" =>
    posargsGeneral a ++ (posargsTrj a).take 3 ++ posargsContact a
      ++ [.int a.lag_compare]
  | "lig_change_at_pos_change_blocks_Li-OBT" =>
    posargsGeneral a ++ (posargsTrj a).take 3 ++ posargsContact a
      ++ (posargsDiscrete a).drop 1
  | "lig_change_at_pos_change_blocks_Li-OE" =>
    posargsGeneral a ++ (posargsTrj a).take 3 ++ posargsContact a
      ++ (posargsDiscrete a).drop 1
  | "lig_change_at_pos_change_blocks_hist_Li-OBT" =>
    posargsGeneral a ++ (posargsTrj a).take 3 ++ posargsContact a
      ++ (posargsDiscrete a).drop 1
  | "lig_change_at_pos_change_blocks_hist_Li-OE" =>
    posargsGeneral a ++ (posargsTrj a).take 3 ++ posargsContact a
      ++ (posargsDiscrete a).drop 1
  | "msd_ether" => posargsGeneral a ++ posargsTrj a
  | "msd_Li" => posargsGeneral a ++ posargsTrj a
  | "msd_NBT" => posargsGeneral a ++ posargsTrj a
  | "msd_NTf2" => posargsGeneral a ++ posargsTrj a
  | "msd_OBT" => posargsGeneral a ++ posargsTrj a
  | "msd_OE" => posargsGeneral a ++ posargsTrj a
  | "msd_layer_ether" => posargsGeneral a ++ posargsTrj a
  | "msd_layer_Li" => posargsGeneral a ++ posargsTrj a
  | "msd_layer_NBT" => posargsGeneral a ++ posargsTrj a
  | "msd_layer_NTf2" => posargsGeneral a ++ posargsTrj a
  | "msd_layer_OBT" => posargsGeneral a ++ posargsTrj a
  | "msd_layer_OE" => posargsGeneral a ++ posargsTrj a
  | "msd_at_coord_change_Li-ether" =>
    posargsGeneral a ++ (posargsTrj a).take 3 ++ posargsContact a
      ++ [.int a.intermittency]
  | "msd_at_coord_change_Li-NTf2" =>
    posargsGeneral a ++ (posargsTrj a).take 3 ++ posargsContact a
      ++ [.int a.intermittency]
  | "renewal_events_Li-ether" =>
    posargsGeneral a ++ (posargsTrj a).take 3 ++ posargsContact a
      ++ [.int a.intermittency]
  | "renewal_events_Li-ether_back_jump_prob" => posargsGeneral a
  | "renewal_events_Li-ether_back_jump_prob_discrete" => posargsGeneral a
  | "renewal_events_Li-ether_kaplan_meier" => posargsGeneral a
  | "renewal_events_Li-ether_kaplan_meier_discrete" => posargsGeneral a
  | "renewal_events_Li-ether_state_lifetime" =>
    posargsGeneral a ++ (posargsTrj a).drop 3
  | "renewal_events_Li-ether_state_lifetime_discrete" =>
    posargsGeneral a ++ [.int a.restartv]
  | "renewal_events_Li-NTf2" =>
    posargsGeneral a ++ (posargsTrj a).take 3 ++ posargsContact a
      ++ [.int a.intermittency]
  | "renewal_events_Li-NTf2_back_jump_prob" => posargsGeneral a
  | "renewal_events_Li-NTf2_back_jump_prob_discrete" => posargsGeneral a
  | "renewal_events_Li-NTf2_kaplan_meier" => posargsGeneral a
  | "renewal_events_Li-NTf2_kaplan_meier_discrete" => posargsGeneral a
  | "renewal_events_Li-NTf2_state_lifetime" =>
    posargsGeneral a ++ (posargsTrj a).drop 3
  | "renewal_events_Li-NTf2_state_lifetime_discrete" =>
    posargsGeneral a ++ [.int a.restartv]
  | "subvolume_charge" =>
    posargsGeneral a ++ (posargsTrj a).take 3 ++ posargsDist a
  | "topo_map_Li-OBT" =>
    posargsGeneral a ++ (posargsTrj a).take 3 ++ posargsContact a
      ++ posargsAtom a
  | "topo_map_Li-OE" =>
    posargsGeneral a ++ (posargsTrj a).take 3 ++ posargsContact a
      ++ posargsAtom a
  | _ => []

/-- The keys of the mdt `posargs` dictionary, in insertion order. -/
def posargsKeys : List String :=
  ["attribute_hist_ether", "attribute_hist_Li", "attribute_hist_NBT",
   "attribute_hist_NTf2", "attribute_hist_OBT", "attribute_hist_OE",
   "axial_hex_dist_1nn_Li", "axial_hex_dist_1nn_NBT", "axial_hex_dist_1nn_OBT",
   "axial_hex_dist_1nn_OE", "axial_hex_dist_2nn_Li", "axial_hex_dist_2nn_NBT",
   "axial_hex_dist_2nn_OBT", "axial_hex_dist_2nn_OE", "contact_hist_Li-O",
   "contact_hist_Li-OBT", "contact_hist_Li-OE", "contact_hist_O-Li",
   "contact_hist_OBT-Li", "contact_hist_OE-Li",
   "contact_hist_at_pos_change_Li-OBT", "contact_hist_at_pos_change_Li-OE",
   "contact_hist_slab-z_Li-OBT", "contact_hist_slab-z_Li-OE",
   "create_mda_universe", "discrete-hex_Li", "discrete-hex_NBT",
   "discrete-hex_OBT", "discrete-hex_OE", "discrete-z_Li",
   "discrete-z_Li_back_jump_prob_discrete", "discrete-z_Li_kaplan_meier_discrete",
   "discrete-z_Li_state_lifetime_discrete", "energy_dist",
   "lifetime_autocorr_Li-ether", "lifetime_autocorr_Li-NTf2",
   "lifetime_autocorr_Li-OBT", "lifetime_autocorr_Li-OE",
   "lig_change_at_pos_change_Li-OBT", "lig_change_at_pos_change_Li-OE",
   "lig_change_at_pos_change_blocks_Li-OBT",
   "lig_change_at_pos_change_blocks_Li-OE",
   "lig_change_at_pos_change_blocks_hist_Li-OBT",
   "lig_change_at_pos_change_blocks_hist_Li-OE", "msd_ether", "msd_Li",
   "msd_NBT", "msd_NTf2", "msd_OBT", "msd_OE", "msd_layer_ether",
   "msd_layer_Li", "msd_layer_NBT", "msd_layer_NTf2", "msd_layer_OBT",
   "msd_layer_OE", "msd_at_coord_change_Li-ether",
   "msd_at_coord_change_Li-NTf2", "renewal_events_Li-ether",
   "renewal_events_Li-ether_back_jump_prob",
   "renewal_events_Li-ether_back_jump_prob_discrete",
   "renewal_events_Li-ether_kaplan_meier",
   "renewal_events_Li-ether_kaplan_meier_discrete",
   "renewal_events_Li-ether_state_lifetime",
   "renewal_events_Li-ether_state_lifetime_discrete", "renewal_events_Li-NTf2",
   "renewal_events_Li-NTf2_back_jump_prob",
   "renewal_events_Li-NTf2_back_jump_prob_discrete",
   "renewal_events_Li-NTf2_kaplan_meier",
   "renewal_events_Li-NTf2_kaplan_meier_discrete",
   "renewal_events_Li-NTf2_state_lifetime",
   "renewal_events_Li-NTf2_state_lifetime_discrete", "subvolume_charge",
   "topo_map_Li-OBT", "topo_map_Li-OE"]

/-- `_assemble_submit_cmd` of the mdt script (lines 434-466); identical in
shape to the gmx one. -/
def assembleCmd (sbatch_opts : Dict PyVal) (pattern : String)
    (pstr : String → String) (job_script : String) : String :=
  let sbatch := "sbatch " ++ optdict2str sbatch_opts ["None", "False"] ["True"]
  let submit := sbatch
  let submit :=
    if !dmem sbatch_opts "job-name" && !dmem sbatch_opts "J" then
      submit ++ " --job-name " ++ pattern ++ "_" ++ job_script
    else submit
  let submit :=
    if !dmem sbatch_opts "output" && !dmem sbatch_opts "o" then
      submit ++ " --output " ++ pattern ++ "_" ++ job_script ++ "_slurm-%j.out"
    else submit
  submit ++ " " ++ job_script ++ ".sh " ++ pstr job_script

/-- `_submit_discretized` of the mdt script (lines 469-545): same
accumulating-`submit` shape as the gmx one, with an `A` (Ångström) suffix and
two decimal places, over its own local slab-script table. -/
def submit_discretized (sbatch_opts : Dict PyVal) (job_script : String)
    (bins : List Q) (pattern : String) (a : Args) :
    Except String (List String) :=
  let posargs : Dict (List PosArg) := [
    ("axial_hex_dist_1nn_Li", posargsGeneral a ++ (posargsTrj a).take 3),
    ("axial_hex_dist_1nn_NBT", posargsGeneral a ++ (posargsTrj a).take 3),
    ("axial_hex_dist_1nn_OBT", posargsGeneral a ++ (posargsTrj a).take 3),
    ("axial_hex_dist_1nn_OE", posargsGeneral a ++ (posargsTrj a).take 3),
    ("axial_hex_dist_2nn_Li", posargsGeneral a ++ (posargsTrj a).take 3),
    ("axial_hex_dist_2nn_NBT", posargsGeneral a ++ (posargsTrj a).take 3),
    ("axial_hex_dist_2nn_OBT", posargsGeneral a ++ (posargsTrj a).take 3),
    ("axial_hex_dist_2nn_OE", posargsGeneral a ++ (posargsTrj a).take 3),
    ("contact_hist_slab-z_Li-OBT",
      posargsGeneral a ++ (posargsTrj a).take 3 ++ posargsContact a),
    ("contact_hist_slab-z_Li-OE",
      posargsGeneral a ++ (posargsTrj a).take 3 ++ posargsContact a),
    ("discrete-hex_Li", posargsGeneral a ++ posargsTrj a),
    ("discrete-hex_NBT", posargsGeneral a ++ posargsTrj a),
    ("discrete-hex_OBT", posargsGeneral a ++ posargsTrj a),
    ("discrete-hex_OE", posargsGeneral a ++ posargsTrj a)]
  if ¬ dmem posargs job_script then
    .error ("Invalid job script: '" ++ job_script ++ "'.  The script does not"
      ++ " analyze a slab in xy plane")
  else
    let sbatch := "sbatch " ++ optdict2str sbatch_opts ["None", "False"] ["True"]
    let res := (bins.zip (bins.drop 1)).foldl (fun (acc : String × List String) pr =>
      let slab_str := "_" ++ formatFixed pr.1 2 ++ "-" ++ formatFixed pr.2 2 ++ "A"
      let submit := acc.1
      let submit :=
        if !dmem sbatch_opts "job-name" && !dmem sbatch_opts "J" then
          submit ++ " --job-name " ++ pattern ++ "_" ++ job_script ++ slab_str
        else submit
      let submit :=
        if !dmem sbatch_opts "output" && !dmem sbatch_opts "o" then
          submit ++ " --output " ++ pattern ++ "_" ++ job_script ++ slab_str
            ++ "_slurm-%j.out"
        else submit
      let posargs_tmp := posargs2str
        ((dlookup posargs job_script).getD [] ++ [.float pr.1, .float pr.2]) 2
      let submit := submit ++ " " ++ job_script ++ ".sh " ++ posargs_tmp
      (submit, acc.2 ++ [submit])) (sbatch, [])
    .ok res.2

/-- `_submit` of the mdt script (lines 548-588). -/
def submitOne (a : Args) (ctx : Ctx) (pattern : String) (pstr : String → String)
    (sbatch_opts : Dict PyVal) (job_script : String) :
    Except PyErr (List SubEntry) :=
  if !pyContains a.system "gra"
      && (pyContains job_script "axial_hex_dist"
        || pyContains job_script "discrete-hex") then
    .ok []
  else if a.discretize
      && (pyContains job_script "axial_hex_dist"
        || pyContains job_script "contact_hist_slab-z"
        || pyContains job_script "discrete-hex") then
    match submit_discretized sbatch_opts job_script ctx.bin_edges pattern a with
    | .error m => .error (.value m)
    | .ok cmds => .ok (cmds.map (fun c => ⟨job_script, sbatch_opts, c⟩))
  else .ok [⟨job_script, sbatch_opts, assembleCmd sbatch_opts pattern pstr job_script⟩]

/-- The `elif` chain of the mdt bulk block (lines 1461-1471): note that a
dependent script outside every table falls back to a dependency on
`create_mda_universe`, not to the original options. -/
def chooseOpts (depMda depDz depRE depRT : Dict PyVal) (s : String) :
    Dict PyVal :=
  if REQUIRE_DTRJ_RENEWAL_ETHER.contains s then depRE
  else if REQUIRE_DTRJ_RENEWAL_TFSI.contains s then depRT
  else if REQUIRE_DTRJ_DISCRETE_Z.contains s then depDz
  else depMda

/-- The bulk block for category codes `0`/`1` (lines 1387-1472):
`create_mda_universe`, then `discrete-z_Li` (after it), then the two
renewal-event extractions (both after `discrete-z_Li`), then every remaining
script with a chained dependency. -/
def block01 (oracle : String → String) (a : Args) (ctx : Ctx)
    (pattern : String) (pstr : String → String)
    (args_sbatch no_dep : Dict PyVal) : SubmitRes :=
  let split := pySplitS a.scripts
  let cmd1 := assembleCmd args_sbatch pattern pstr "create_mda_universe"
  let e1 : SubEntry := ⟨"create_mda_universe", args_sbatch, cmd1⟩
  match getJobId (oracle cmd1) with
  | .error err => ([e1], some err)
  | .ok idMda =>
    let depMda := dep_opts no_dep idMda
    let cmd2 := assembleCmd depMda pattern pstr "discrete-z_Li"
    let e2 : SubEntry := ⟨"discrete-z_Li", depMda, cmd2⟩
    match getJobId (oracle cmd2) with
    | .error err => ([e1, e2], some err)
    | .ok idDz =>
      let depDz := dep_opts no_dep idDz
      let cmd3 := assembleCmd depDz pattern pstr "renewal_events_Li-ether"
      let e3 : SubEntry := ⟨"renewal_events_Li-ether", depDz, cmd3⟩
      match getJobId (oracle cmd3) with
      | .error err => ([e1, e2, e3], some err)
      | .ok idRE =>
        let depRE := dep_opts no_dep idRE
        let cmd4 := assembleCmd depDz pattern pstr "renewal_events_Li-NTf2"
        let e4 : SubEntry := ⟨"renewal_events_Li-NTf2", depDz, cmd4⟩
        match getJobId (oracle cmd4) with
        | .error err => ([e1, e2, e3, e4], some err)
        | .ok idRT =>
          let depRT := dep_opts no_dep idRT
          seqRes ([e1, e2, e3, e4], Option.none) (fun _ =>
            resFoldScripts posargsKeys (fun s =>
              if !split.contains "0"
                  && (pyContains s "axial_hex_dist"
                    || pyContains s "contact_hist_slab-z"
                    || pyContains s "discrete-hex") then
                .ok []
              else if s = "create_mda_universe" || s = "discrete-z_Li"
                  || s = "renewal_events_Li-ether"
                  || s = "renewal_events_Li-NTf2" then
                .ok []
              else if s = "energy_dist" then .ok []
              else if pyContains s "attribute_hist" then .ok []
              else if pyContains s "lig_change_at_pos_change" then .ok []
              else submitOne a ctx pattern pstr
                (chooseOpts depMda depDz depRE depRT s) s))

/-- The block for category code `3` (lines 1482-1495): `discrete-z_Li`, then
every `discrete-z_Li_*` script depending on it, each submitted through a
directly assembled command. -/
def block3 (oracle : String → String) (pattern : String)
    (pstr : String → String) (args_sbatch no_dep : Dict PyVal) : SubmitRes :=
  let cmd1 := assembleCmd args_sbatch pattern pstr "discrete-z_Li"
  let e1 : SubEntry := ⟨"discrete-z_Li", args_sbatch, cmd1⟩
  match getJobId (oracle cmd1) with
  | .error err => ([e1], some err)
  | .ok id =>
    let dep := dep_opts no_dep id
    seqRes ([e1], Option.none) (fun _ =>
      resFoldScripts posargsKeys (fun s =>
        if pyContains s "discrete-z_Li_" then
          .ok [⟨s, dep, assembleCmd dep pattern pstr s⟩]
        else .ok []))

/-- The block for category code `11` (lines 1569-1611): the two renewal-event
extractions, then every script working on renewal-event trajectories with the
matching dependency; an unclassifiable script raises `LookupError`. -/
def block11 (oracle : String → String) (a : Args) (ctx : Ctx)
    (pattern : String) (pstr : String → String)
    (args_sbatch no_dep : Dict PyVal) : SubmitRes :=
  let cmd1 := assembleCmd args_sbatch pattern pstr "renewal_events_Li-ether"
  let e1 : SubEntry := ⟨"renewal_events_Li-ether", args_sbatch, cmd1⟩
  match getJobId (oracle cmd1) with
  | .error err => ([e1], some err)
  | .ok idRE =>
    let depRE := dep_opts no_dep idRE
    let cmd2 := assembleCmd args_sbatch pattern pstr "renewal_events_Li-NTf2"
    let e2 : SubEntry := ⟨"renewal_events_Li-NTf2", args_sbatch, cmd2⟩
    match getJobId (oracle cmd2) with
    | .error err => ([e1, e2], some err)
    | .ok idRT =>
      let depRT := dep_opts no_dep idRT
      seqRes ([e1, e2], Option.none) (fun _ =>
        resFoldScripts posargsKeys (fun s =>
          if s = "renewal_events_Li-ether" || s = "renewal_events_Li-NTf2" then
            .ok []
          else if pyContains s "renewal_events" then
            if REQUIRE_DTRJ_RENEWAL_ETHER.contains s then
              submitOne a ctx pattern pstr depRE s
            else if REQUIRE_DTRJ_RENEWAL_TFSI.contains s then
              submitOne a ctx pattern pstr depRT s
            else
              .error (.lookupErr ("'" ++ s ++ "' is neither in"
                ++ " REQUIRE_DTRJ_RENEWAL_ETHER nor in"
                ++ " REQUIRE_DTRJ_RENEWAL_TFSI.  This should not have"
                ++ " happened"))
          else .ok []))

/-- The "Submitting job(s) to Slurm..." phase of the mdt script
(lines 1380-1665). -/
def submitPhase (oracle : String → String) (a : Args) (ctx : Ctx)
    (args_sbatch : Dict PyVal) : SubmitRes :=
  let pattern := infilePattern a
  let pstr := fun s => posargs2str (posargsList a ctx s) 2
  let no_dep := dpop (dpop args_sbatch "dependency") "d"
  let split := pySplitS a.scripts
  let sub := fun (opts : Dict PyVal) (s : String) =>
    submitOne a ctx pattern pstr opts s
  let r := resFoldScripts posargsKeys (fun s =>
    if split.contains s then sub args_sbatch s else .ok [])
  let r := seqRes r (fun _ =>
    if split.contains "0" || split.contains "1" then
      block01 oracle a ctx pattern pstr args_sbatch no_dep
    else ([], Option.none))
  let r := seqRes r (fun _ =>
    if split.contains "2" then
      resFoldScripts posargsKeys (fun s =>
        if pyContains s "axial_hex_dist" || pyContains s "contact_hist_slab-z"
            || pyContains s "discrete-hex" then
          sub args_sbatch s
        else .ok [])
    else ([], Option.none))
  let r := seqRes r (fun _ =>
    if split.contains "3" then block3 oracle pattern pstr args_sbatch no_dep
    else ([], Option.none))
  let r := seqRes r (fun _ =>
    if split.contains "4" then
      resFoldScripts posargsKeys (fun s =>
        if pyContains s "discrete-hex" then sub args_sbatch s else .ok [])
    else ([], Option.none))
  let r := seqRes r (fun _ =>
    if split.contains "5" then
      resFoldScripts posargsKeys (fun s =>
        if pyContains s "axial_hex_dist" then sub args_sbatch s else .ok [])
    else ([], Option.none))
  let r := seqRes r (fun _ =>
    if split.contains "6" then
      resFoldScripts posargsKeys (fun s =>
        if pyContains s "contact_hist" then sub args_sbatch s else .ok [])
    else ([], Option.none))
  let r := seqRes r (fun _ =>
    if split.contains "6.1" then
      resFoldScripts posargsKeys (fun s =>
        if pyContains s "contact_hist"
            && !pyContains s "contact_hist_at_pos_change"
            && !pyContains s "contact_hist_slab-z" then
          sub args_sbatch s
        else .ok [])
    else ([], Option.none))
  let r := seqRes r (fun _ =>
    if split.contains "6.2" then
      resFoldScripts posargsKeys (fun s =>
        if pyContains s "contact_hist_slab-z" then sub args_sbatch s else .ok [])
    else ([], Option.none))
  let r := seqRes r (fun _ =>
    if split.contains "6.3" then
      resFoldScripts posargsKeys (fun s =>
        if pyContains s "contact_hist_at_pos_change" then sub args_sbatch s
        else .ok [])
    else ([], Option.none))
  let r := seqRes r (fun _ =>
    if split.contains "7" then
      resFoldScripts posargsKeys (fun s =>
        if pyContains s "lig_change_at_pos_change" then sub args_sbatch s
        else .ok [])
    else ([], Option.none))
  let r := seqRes r (fun _ =>
    if split.contains "8" then
      resFoldScripts posargsKeys (fun s =>
        if pyContains s "topo_map" then sub args_sbatch s else .ok [])
    else ([], Option.none))
  let r := seqRes r (fun _ =>
    if split.contains "9" then
      resFoldScripts posargsKeys (fun s =>
        if pyContains s "msd" then sub args_sbatch s else .ok [])
    else ([], Option.none))
  let r := seqRes r (fun _ =>
    if split.contains "9.1" then
      resFoldScripts posargsKeys (fun s =>
        if pyContains s "msd" && !pyContains s "msd_at_coord_change"
            && !pyContains s "msd_layer" then
          sub args_sbatch s
        else .ok [])
    else ([], Option.none))
  let r := seqRes r (fun _ =>
    if split.contains "9.2" then
      resFoldScripts posargsKeys (fun s =>
        if pyContains s "msd_layer" then sub args_sbatch s else .ok [])
    else ([], Option.none))
  let r := seqRes r (fun _ =>
    if split.contains "9.3" then
      resFoldScripts posargsKeys (fun s =>
        if pyContains s "msd_at_coord_change" then sub args_sbatch s else .ok [])
    else ([], Option.none))
  let r := seqRes r (fun _ =>
    if split.contains "10" then
      resFoldScripts posargsKeys (fun s =>
        if pyContains s "lifetime_autocorr" then sub args_sbatch s else .ok [])
    else ([], Option.none))
  let r := seqRes r (fun _ =>
    if split.contains "11" then
      block11 oracle a ctx pattern pstr args_sbatch no_dep
    else ([], Option.none))
  let r := seqRes r (fun _ =>
    if split.contains "11.1" then
      resFoldScripts posargsKeys (fun s =>
        if s = "renewal_events_Li-ether" || s = "renewal_events_Li-NTf2" then
          sub args_sbatch s
        else .ok [])
    else ([], Option.none))
  let r := seqRes r (fun _ =>
    if split.contains "11.2" then
      resFoldScripts posargsKeys (fun s =>
        if s = "renewal_events_Li-ether" || s = "renewal_events_Li-NTf2" then
          .ok []
        else if pyContains s "renewal_events" then sub args_sbatch s
        else .ok [])
    else ([], Option.none))
  let r := seqRes r (fun _ =>
    if split.contains "11.3" then
      resFoldScripts posargsKeys (fun s =>
        if s = "renewal_events_Li-ether" || s = "renewal_events_Li-NTf2" then
          .ok []
        else if pyContains s "renewal_events" && !pyContains s "discrete" then
          sub args_sbatch s
        else .ok [])
    else ([], Option.none))
  let r := seqRes r (fun _ =>
    if split.contains "11.4" then
      resFoldScripts posargsKeys (fun s =>
        if s = "renewal_events_Li-ether" || s = "renewal_events_Li-NTf2" then
          .ok []
        else if pyContains s "renewal_events" && pyContains s "discrete" then
          sub args_sbatch s
        else .ok [])
    else ([], Option.none))
  let r := seqRes r (fun _ =>
    if split.contains "12" then
      resFoldScripts posargsKeys (fun s =>
        if s = "energy_dist" || pyContains s "attribute_hist" then
          sub args_sbatch s
        else .ok [])
    else ([], Option.none))
  let r := seqRes r (fun _ =>
    if split.contains "13" then
      resFoldScripts posargsKeys (fun s =>
        if pyContains s "attribute_hist" then sub args_sbatch s else .ok [])
    else ([], Option.none))
  r

/-- The whole `__main__` block of the mdt script after option parsing:
argument processing, file-prerequisite validation (with `.npz` fallback), the
lmod source-file and MDTools-directory checks, then the submit phase.  `dirs`
is the list of existing directories (for the `--mdt-path` check). -/
def main (fs dirs : List String) (boxZ : String → Q)
    (oracle : String → String) (a : Args) (args_sbatch : Dict PyVal) :
    SubmitRes :=
  match processArgs fs boxZ a with
  | .error e => ([], some e)
  | .ok ctx =>
    match buildFiles fs a with
    | .error e => ([], some e)
    | .ok files =>
      match checkFiles fs files with
      | .error e => ([], some e)
      | .ok _ =>
        if !fs.contains (lmodPath a.py_lmod) then
          ([], some (.fnf ("No such file: '" ++ lmodPath a.py_lmod
            ++ "'.  This might happen if you change the directory structure of"
            ++ " this project or if you have not given a source file relative"
            ++ " to the lmod directory of this project with --py-lmod")))
        else if !dirs.contains a.mdt_path then
          ([], some (.fnf ("No such directory: '" ++ a.mdt_path ++ "'.")))
        else submitPhase oracle a ctx args_sbatch

end Mdt

/-! ## Claim-side definitions -/

/-- Claim side of C9: a whitespace token that parses as a plain non-negative,
non-decimal integer (nonempty, digit characters only; a sign or a decimal
point is not a digit character). -/
def plainIntToken (t : List Char) : Option Nat :=
  if t ≠ [] ∧ ∀ c ∈ t, isAsciiDigit c then some (digitsToNat t) else none

/-- Claim side of C10 (as amended): how a single pass-through scheduler option
appears in the assembled option list.  A value stringifying (after stripping)
to `None` or `False` is omitted entirely; one stringifying to `True` — or to
the empty string — contributes a bare flag; every other value follows the
flag; a key that strips to the empty string contributes no flag, only the
value (positional argument). -/
def specEncodeOpt (p : String × PyVal) : List String :=
  let k := pyStripS p.1
  let v := pyStripS (pyStr p.2)
  let flag := if k.length = 1 then ["-" ++ k] else if 1 < k.length then ["--" ++ k] else []
  if v = "None" ∨ v = "False" then []
  else if v = "True" ∨ v = "" then flag
  else flag ++ [v]

/-! ## Concrete invocation inputs

Sample parsed-option records used to instantiate the universally quantified
theorems below on closed inputs. -/

/-- A gmx invocation requesting category `3` (trajectory-conversion scripts),
with `--end` and `--zmax` given explicitly. -/
def gmxArgs3 : Gmx.Args :=
  { system := "sys"
    settings := "pr"
    scripts := "3"
    beginv := ⟨0, 1⟩
    endv := some ⟨10, 1⟩
    every := ⟨1, 1⟩
    beginfit := ⟨-1, 1⟩
    endfit := ⟨-1, 1⟩
    restartv := ⟨1, 1⟩
    binwidth := ⟨1, 20⟩
    zmin := ⟨0, 1⟩
    zmax := some ⟨10, 1⟩
    slabwidth := ⟨1, 10⟩
    discretize := false
    center_slab := false
    gmx_lmod := "palma/2019a/gmx2018-8_foss.sh"
    gmx_exe := some "gmx" }

/-- The processed-argument record of `gmxArgs3` on an empty filesystem. -/
def gmxCtx3 : Gmx.Ctx :=
  { endv := some ⟨10, 1⟩
    zmin := ⟨0, 1⟩
    zmax := ⟨10, 1⟩
    nbins := Option.none
    bin_edges := [] }

/-- An mdt invocation requesting the single script `msd_Li`. -/
def mdtArgsMsd : Mdt.Args :=
  { system := "sys"
    settings := "pr"
    scripts := "msd_Li"
    beginv := 0
    endv := -1
    every := 1
    nblocks := 1
    restartv := 500
    binwidth := ⟨1, 10⟩
    cutoff := ⟨3, 1⟩
    atom_index := 0
    intermittency := 0
    lag_compare := 50
    min_block_size := 100
    max_gap_size := 50
    zmin := ⟨0, 1⟩
    zmax := some ⟨10, 1⟩
    slabwidth := ⟨1, 10⟩
    discretize := false
    center_slab := false
    py_lmod := "palma/2020b/python-3.8.sh"
    py_exe := some "py"
    mdt_path := "mdt" }

/-- An mdt invocation requesting only category `11.3` (lifetimes of the
renewal-event trajectories). -/
def mdtArgs113 : Mdt.Args :=
  { mdtArgsMsd with scripts := "11.3" }

/-! ## Theorems: string and option helpers -/

/-- C6.  String-to-type coercion: under its default settings, `convert_str`
returns `None` for the stripped, case-insensitive string `'none'`, `True` for
`'true'`, `False` for `'false'`, otherwise the integer parse when the string
parses as an integer, otherwise the float parse when it parses as a float, and
otherwise the input unchanged as a string.  Both parses return `Option`s and
their failures are caught in the source (`try`/`except ValueError`), so the
embedded function is total: no exception escapes for any string input. -/
theorem convert_str_default_coercion (s : String) :
    convert_str_default s = specCoerce s := by
  unfold convert_str_default convert_str specCoerce
  simp only [Bool.not_false, if_neg, if_pos, List.append_nil, ite_false, ite_true,
    Bool.false_eq_true, List.map_cons, List.map_nil, List.mem_singleton, List.mem_cons,
    List.not_mem_nil, or_false]
  rfl

/-- Helper for C9: `pyIsdigit`-filtering then taking values agrees with
filter-mapping through the claim-side plain-integer parse. -/
theorem plainIntToken_eq (t : List Char) :
    plainIntToken t = if pyIsdigit t then some (digitsToNat t) else none := by
  cases t with
  | nil => simp [plainIntToken, pyIsdigit]
  | cons c cs => simp [plainIntToken, pyIsdigit, List.all_eq_true]

/-- C9.  Integer extraction: for every input text,
`extract_ints_from_str` returns, in order of appearance, the values of exactly
those whitespace-split tokens that parse as plain non-negative, non-decimal
integers, silently skipping every other token; and the three concrete examples
from the specification hold. -/
theorem extract_ints_from_str_spec :
    (∀ s : String,
      extract_ints_from_str s = (pySplit s.data).filterMap plainIntToken) ∧
    extract_ints_from_str "Submitted batch job 482910" = [482910] ∧
    extract_ints_from_str "value is -3.5" = [] ∧
    extract_ints_from_str "no numbers here" = [] := by
  refine ⟨fun s => ?_, by decide, by decide, by decide⟩
  unfold extract_ints_from_str
  generalize pySplit s.data = l
  induction l with
  | nil => rfl
  | cons t l ih =>
    by_cases h : pyIsdigit t <;>
      simp [List.filter_cons, List.filterMap_cons, h, plainIntToken_eq, ih]

/-- C10, counterexample to the claim as stated.  In the assembled option list,
an option whose value stringifies to the empty string is emitted as a bare
flag (`["-c"]`), not as `'-k value'`; and an option whose key strips to the
empty string contributes its value alone, with no `-`/`--` key at all.  The
claim as stated requires every option whose value is not `'None'`, `'False'`
or `'True'` to appear as `'-k value'` or `'--key value'`, which fails here. -/
theorem optdict2list_empty_value_counterexample :
    optdict2list [("c", .str ""), ("", .str "pos")] ["None", "False"] ["True"]
      = ["-c", "pos"] := by decide

/-- Helper for C10: one loop iteration appends exactly the per-entry
encoding. -/
theorem optdict2listStep_encode (acc : List String) (p : String × PyVal) :
    optdict2listStep ["None", "False"] ["True"] acc p = acc ++ specEncodeOpt p := by
  unfold optdict2listStep specEncodeOpt
  simp only [List.mem_cons, List.mem_singleton, List.not_mem_nil, or_false]
  have hflag : (if (pyStripS p.1).length = 1 then acc ++ ["-" ++ pyStripS p.1]
      else if 1 < (pyStripS p.1).length then acc ++ ["--" ++ pyStripS p.1] else acc)
      = acc ++ (if (pyStripS p.1).length = 1 then ["-" ++ pyStripS p.1]
      else if 1 < (pyStripS p.1).length then ["--" ++ pyStripS p.1] else []) := by
    by_cases hk : (pyStripS p.1).length = 1
    · simp [hk]
    · by_cases hk' : 1 < (pyStripS p.1).length
      · simp [hk, hk']
      · simp [hk, hk']
  by_cases h1 : pyStripS (pyStr p.2) = "None" ∨ pyStripS (pyStr p.2) = "False"
  · simp [h1]
  · rw [if_neg h1, if_neg h1]
    by_cases h2 : pyStripS (pyStr p.2) = "True"
    · rw [show (if pyStripS (pyStr p.2) = "True" then "" else pyStripS (pyStr p.2))
        = "" from if_pos h2, if_pos rfl, if_pos (Or.inl h2)]
      exact hflag
    · rw [show (if pyStripS (pyStr p.2) = "True" then "" else pyStripS (pyStr p.2))
        = pyStripS (pyStr p.2) from if_neg h2]
      by_cases h3 : pyStripS (pyStr p.2) = ""
      · rw [if_pos h3, if_pos (Or.inr h3)]
        exact hflag
      · rw [if_neg h3, hflag, List.append_assoc]
        congr 1
        exact (if_neg (fun h => h.elim h2 h3)).symm

/-- C10, as amended.  With the submit scripts' settings
(`skiped_opts=("None","False")`, `dumped_vals=("True",)`), the assembled
option list is exactly the concatenation, over the dictionary entries in
order, of the per-entry encoding `specEncodeOpt`: values stringifying to
`None`/`False` are omitted entirely, values stringifying to `True` *or to the
empty string* become a bare flag, every other option appears as `-k value`
(single-character key) or `--key value` (longer key), and an empty key emits
the value alone. -/
theorem optdict2list_encoding (d : Dict PyVal) :
    optdict2list d ["None", "False"] ["True"] = d.flatMap specEncodeOpt := by
  unfold optdict2list
  suffices h : ∀ acc : List String,
      d.foldl (optdict2listStep ["None", "False"] ["True"]) acc
        = acc ++ d.flatMap specEncodeOpt by
    simpa using h []
  induction d with
  | nil => intro acc; simp
  | cons p d ih =>
    intro acc
    rw [List.foldl_cons, List.flatMap_cons, optdict2listStep_encode, ih,
      List.append_assoc]

/-- Reading lines from a later position never yields more lines than the file
has: `linesOf b` is at most as long as `linesOf (a ++ b)`. -/
theorem linesOf_length_le (a b : List Char) :
    (linesOf b).length ≤ (linesOf (a ++ b)).length := by
  induction a with
  | nil => simp
  | cons c a ih =>
    rw [List.cons_append, linesOf]
    by_cases hc : c = '\n'
    · rw [if_pos hc, List.length_cons]
      omega
    · rw [if_neg hc]
      rcases hl : linesOf (a ++ b) with _ | ⟨l, ls⟩
      · rw [hl] at ih
        exact Nat.le_trans ih (Nat.zero_le _)
      · rw [hl] at ih
        exact ih

/-- The last `n` elements of a list do not depend on its head when the tail is
long enough. -/
theorem lastN_cons_of_le (n : Nat) (x : α) (l : List α) (h : n ≤ l.length) :
    lastN n (x :: l) = lastN n l := by
  unfold lastN
  rw [List.length_cons]
  rw [show l.length + 1 - n = (l.length - n) + 1 by omega]
  rfl

/-- Key lemma for `tail`: once a suffix of the file yields at least `n + 1`
lines, its last `n` lines are the last `n` lines of the whole file (the
possibly partial first line of the suffix is discarded by the slice). -/
theorem lastN_linesOf_append (n : Nat) (a b : List Char)
    (h : n + 1 ≤ (linesOf b).length) :
    lastN n (linesOf (a ++ b)) = lastN n (linesOf b) := by
  induction a with
  | nil => simp
  | cons c a ih =>
    rw [List.cons_append, linesOf]
    by_cases hc : c = '\n'
    · rw [if_pos hc]
      rw [lastN_cons_of_le]
      · exact ih
      · have := linesOf_length_le a b
        omega
    · rw [if_neg hc]
      rcases hl : linesOf (a ++ b) with _ | ⟨l, ls⟩
      · exfalso
        have := linesOf_length_le a b
        rw [hl] at this
        simp only [List.length_nil, Nat.le_zero] at this
        omega
      · have hlen : n ≤ ls.length := by
          have := linesOf_length_le a b
          rw [hl] at this
          simp only [List.length_cons] at this
          omega
        show lastN n ((c :: l) :: ls) = lastN n (linesOf b)
        rw [hl] at ih
        rw [lastN_cons_of_le _ _ _ hlen]
        rw [lastN_cons_of_le _ _ _ hlen] at ih
        exact ih

/-- The backward-seek loop ends in a state whose last `n` lines are the last
`n` lines of the whole file, from any starting cursor position. -/
theorem tailLoop_lastN (content : List Char) (n : Nat) :
    ∀ pos, lastN n (tailLoop content n pos) = lastN n (linesOf content) := by
  intro pos
  induction pos using Nat.strong_induction_on with
  | _ pos ih =>
    rw [tailLoop]
    by_cases h0 : pos - min (max (10 * n) 1) pos = 0
    · rw [if_pos h0, h0, List.drop_zero]
    · rw [if_neg h0]
      by_cases h1 :
          (linesOf (content.drop (pos - min (max (10 * n) 1) pos))).length < n + 1
      · rw [if_pos h1]
        exact ih _ (by omega)
      · rw [if_neg h1]
        have h2 := lastN_linesOf_append n
          (content.take (pos - min (max (10 * n) 1) pos))
          (content.drop (pos - min (max (10 * n) 1) pos)) (by omega)
        rw [List.take_append_drop] at h2
        exact h2.symm

/-- C8.  Tail equivalence: for every text file content and every `n ≥ 0`,
`tail` returns exactly the result of reading the whole file and slicing the
last `n` lines — hence `min n total_lines` lines, in original file order —
regardless of how the file's size compares to the internal backward-seek
chunk size `max(10n, 1)` (the cursor position is universally quantified
through `tailLoop_lastN`). -/
theorem tail_last_lines (content : List Char) (n : Nat) :
    tail content n = lastN n (linesOf content) ∧
    (tail content n).length = min n (linesOf content).length := by
  have hmain : tail content n = lastN n (linesOf content) := by
    unfold tail
    by_cases hn : n = 0
    · rw [if_pos hn, hn]
      unfold lastN
      rw [Nat.sub_zero, List.drop_length]
    · rw [if_neg hn]
      exact tailLoop_lastN content n content.length
  refine ⟨hmain, ?_⟩
  rw [hmain]
  unfold lastN
  rw [List.length_drop]
  omega

/-- C7.  Compressed-file resolution: for every filesystem and base filename,
`get_compressed_file` returns the first existing file among the base name and
its `.gz`, `.bz2`, `.xz`, `.lzma` variants, checked in exactly that order (so
the uncompressed name wins even when a compressed sibling also exists), and
when none exists it raises a `FileNotFoundError` whose message lists all five
attempted names — stated both as the exact message and as the fact that each
candidate name occurs in it. -/
theorem get_compressed_file_resolution (fs : List String) (fname : String) :
    (get_compressed_file fs fname =
      (if fname ∈ fs then .ok fname
      else if fname ++ ".gz" ∈ fs then .ok (fname ++ ".gz")
      else if fname ++ ".bz2" ∈ fs then .ok (fname ++ ".bz2")
      else if fname ++ ".xz" ∈ fs then .ok (fname ++ ".xz")
      else if fname ++ ".lzma" ∈ fs then .ok (fname ++ ".lzma")
      else .error ("No such files: '" ++ fname ++ "' '" ++ (fname ++ ".gz") ++ "' '"
        ++ (fname ++ ".bz2") ++ "' '" ++ (fname ++ ".xz") ++ "' '"
        ++ (fname ++ ".lzma") ++ "'"))) ∧
    ∀ fmt ∈ compressedFormats,
      (fname ++ fmt).data <:+: ("No such files: '" ++ fname ++ "' '" ++ (fname ++ ".gz")
        ++ "' '" ++ (fname ++ ".bz2") ++ "' '" ++ (fname ++ ".xz") ++ "' '"
        ++ (fname ++ ".lzma") ++ "'").data := by
  constructor
  · unfold get_compressed_file compressedFormats
    simp only [List.map_cons, List.map_nil, String.append_empty]
    by_cases h0 : fname ∈ fs
    · simp [List.find?_cons_of_pos, h0]
    · rw [List.find?_cons_of_neg _ (by simp [h0])]
      by_cases h1 : fname ++ ".gz" ∈ fs
      · simp [List.find?_cons_of_pos, h0, h1]
      · rw [List.find?_cons_of_neg _ (by simp [h1])]
        by_cases h2 : fname ++ ".bz2" ∈ fs
        · simp [List.find?_cons_of_pos, h0, h1, h2]
        · rw [List.find?_cons_of_neg _ (by simp [h2])]
          by_cases h3 : fname ++ ".xz" ∈ fs
          · simp [List.find?_cons_of_pos, h0, h1, h2, h3]
          · rw [List.find?_cons_of_neg _ (by simp [h3])]
            by_cases h4 : fname ++ ".lzma" ∈ fs
            · simp [List.find?_cons_of_pos, h0, h1, h2, h3, h4]
            · rw [List.find?_cons_of_neg _ (by simp [h4])]
              simp [h0, h1, h2, h3, h4, joinWith, String.append_assoc]
  · intro fmt hm
    simp only [compressedFormats, List.mem_cons, List.not_mem_nil, or_false] at hm
    rcases hm with h | h | h | h | h
    · subst h
      refine ⟨"No such files: '".data, ("' '" ++ (fname ++ ".gz") ++ "' '"
        ++ (fname ++ ".bz2") ++ "' '" ++ (fname ++ ".xz") ++ "' '"
        ++ (fname ++ ".lzma") ++ "'").data, ?_⟩
      simp [String.data_append, List.append_assoc, String.append_empty]
    · subst h
      refine ⟨("No such files: '" ++ fname ++ "' '").data, ("' '"
        ++ (fname ++ ".bz2") ++ "' '" ++ (fname ++ ".xz") ++ "' '"
        ++ (fname ++ ".lzma") ++ "'").data, ?_⟩
      simp [String.data_append, List.append_assoc]
    · subst h
      refine ⟨("No such files: '" ++ fname ++ "' '" ++ (fname ++ ".gz") ++ "' '").data,
        ("' '" ++ (fname ++ ".xz") ++ "' '" ++ (fname ++ ".lzma") ++ "'").data, ?_⟩
      simp [String.data_append, List.append_assoc]
    · subst h
      refine ⟨("No such files: '" ++ fname ++ "' '" ++ (fname ++ ".gz") ++ "' '"
        ++ (fname ++ ".bz2") ++ "' '").data, ("' '" ++ (fname ++ ".lzma") ++ "'").data, ?_⟩
      simp [String.data_append, List.append_assoc]
    · subst h
      refine ⟨("No such files: '" ++ fname ++ "' '" ++ (fname ++ ".gz") ++ "' '"
        ++ (fname ++ ".bz2") ++ "' '" ++ (fname ++ ".xz") ++ "' '").data, "'".data, ?_⟩
      simp [String.data_append, List.append_assoc]

/-- Witness for C7: at the concrete filesystem `["a", "a.gz"]` the uncompressed
name wins although a compressed sibling exists; with an empty filesystem every
candidate (here the `.lzma` one, whose membership hypothesis is discharged
concretely) occurs in the raised message. -/
theorem get_compressed_file_resolution_witness :
    get_compressed_file ["a", "a.gz"] "a" = .ok "a" ∧
    get_compressed_file [] "a"
      = .error "No such files: 'a' 'a.gz' 'a.bz2' 'a.xz' 'a.lzma'" ∧
    ("a" ++ ".lzma").data <:+: ("No such files: '" ++ "a" ++ "' '" ++ ("a" ++ ".gz")
      ++ "' '" ++ ("a" ++ ".bz2") ++ "' '" ++ ("a" ++ ".xz") ++ "' '"
      ++ ("a" ++ ".lzma") ++ "'").data := by
  refine ⟨?_, ?_, (get_compressed_file_resolution [] "a").2 ".lzma" (by decide)⟩
  · rw [(get_compressed_file_resolution ["a", "a.gz"] "a").1]
    decide
  · rw [(get_compressed_file_resolution [] "a").1]
    decide

/-- C1.  Evaluation of the section-flattening loop of `get_opts` at a
three-section known-section list: sections `a`, `b`, `c` in that order, with
option `spam` set to `0` in `a`, `1` in `b` and `2` in `c`.  The loop iterates
`secs_known[:0:-1] = [c, b]` and each `dict.update` *overwrites* the values
accumulated so far, so the value from section `b` — the *second*-listed
section — survives, not the value from the last-listed section `c`.  This
contradicts both the claim and the source's own docstring ("options in the
last given section have the highest preference"): the documented precedence
holds only for known-section lists of length at most two. -/
theorem get_opts_flatten_three_sections :
    get_opts_flatten
        [("a", [("spam", .int 0)]), ("b", [("spam", .int 1)]),
          ("c", [("spam", .int 2)])] ["a", "b", "c"]
      = [("a", [("spam", .int 1)])] ∧ (PyVal.int 1) ≠ (PyVal.int 2) := by
  exact ⟨by decide, by decide⟩

set_option maxRecDepth 40000 in
/-- C2.  Evaluation of `_submit_discretized` at a bin-edge sequence
`[0, 0.5, 1]` (two bins): the function executes two commands, but because the
accumulating `submit` string is initialised before the bin loop and never
reset inside it, the second executed command is the *entire first command*
with the second bin's job-name/output/script/arguments appended — not a
single submit command for the script alone.  The first command ends with the
first bin's edges and is well-formed; every later one is not. -/
theorem gmx_submit_discretized_accumulates :
    gmx_submit_discretized [] "rdf_slab-z_Li" [⟨0, 1⟩, ⟨1, 2⟩, ⟨1, 1⟩] "pr_sys"
      [.str "BASH", .str "LMOD", .str "gmx", .str "sys", .str "pr"]
      [.float ⟨0, 1⟩, .float ⟨100, 1⟩, .float ⟨1, 1⟩] [.float ⟨5, 1000⟩]
    = .ok [
      "sbatch  --job-name pr_sys_rdf_slab-z_Li_0.000-0.500nm"
        ++ " --output pr_sys_rdf_slab-z_Li_0.000-0.500nm_slurm-%j.out"
        ++ " rdf_slab-z_Li.sh BASH LMOD gmx sys pr 0.000 100.000 1.000 0.005 0.000 0.500",
      "sbatch  --job-name pr_sys_rdf_slab-z_Li_0.000-0.500nm"
        ++ " --output pr_sys_rdf_slab-z_Li_0.000-0.500nm_slurm-%j.out"
        ++ " rdf_slab-z_Li.sh BASH LMOD gmx sys pr 0.000 100.000 1.000 0.005 0.000 0.500"
        ++ " --job-name pr_sys_rdf_slab-z_Li_0.500-1.000nm"
        ++ " --output pr_sys_rdf_slab-z_Li_0.500-1.000nm_slurm-%j.out"
        ++ " rdf_slab-z_Li.sh BASH LMOD gmx sys pr 0.000 100.000 1.000 0.005 0.500 1.000"] := by
  decide


/-! ### Requirement-set lemmas (C3, C4) -/

/-- What the category-code chain of the mdt requirement loop does to the
`run input` entry: the codes in `tprCats` `setdefault` it to the `.tpr`
file name, all other tokens leave it untouched. -/
theorem Mdt.buildFilesCat_run_input (a : Mdt.Args) (files : Dict String)
    (script : String) :
    dlookup (Mdt.buildFilesCat a files script) "run input" =
      if Mdt.tprCats.contains script then
        some ((dlookup files "run input").getD (Mdt.TPR_FILE a))
      else dlookup files "run input" := by
  unfold Mdt.buildFilesCat
  by_cases h01 : (decide (script = "0") || decide (script = "1")) = true
  · rw [if_pos h01]
    have h0 : script = "0" ∨ script = "1" := by simpa using h01
    rcases h0 with rfl | rfl <;>
      simp +decide [Mdt.tprCats, dlookup_dsetdefault_ne, dlookup_dsetdefault_self]
  · rw [if_neg h01]
    by_cases h2 : script = "2"
    · subst h2
      simp +decide [Mdt.tprCats, dlookup_dsetdefault_ne, dlookup_dsetdefault_self]
    · rw [if_neg h2]
      by_cases h3 : script = "3"
      · subst h3
        simp +decide [Mdt.tprCats, dlookup_dsetdefault_ne, dlookup_dsetdefault_self]
      · rw [if_neg h3]
        by_cases h4 : script = "4"
        · subst h4
          simp +decide [Mdt.tprCats, dlookup_dsetdefault_ne, dlookup_dsetdefault_self]
        · rw [if_neg h4]
          by_cases h5 : script = "5"
          · subst h5
            simp +decide [Mdt.tprCats, dlookup_dsetdefault_ne, dlookup_dsetdefault_self]
          · rw [if_neg h5]
            by_cases h6 : script = "6"
            · subst h6
              simp +decide [Mdt.tprCats, dlookup_dsetdefault_ne, dlookup_dsetdefault_self]
            · rw [if_neg h6]
              by_cases h6p1 : script = "6.1"
              · subst h6p1
                simp +decide [Mdt.tprCats, dlookup_dsetdefault_ne, dlookup_dsetdefault_self]
              · rw [if_neg h6p1]
                by_cases h6p2 : script = "6.2"
                · subst h6p2
                  simp +decide [Mdt.tprCats, dlookup_dsetdefault_ne, dlookup_dsetdefault_self]
                · rw [if_neg h6p2]
                  by_cases h6p3 : script = "6.3"
                  · subst h6p3
                    simp +decide [Mdt.tprCats, dlookup_dsetdefault_ne, dlookup_dsetdefault_self]
                  · rw [if_neg h6p3]
                    by_cases h7 : script = "7"
                    · subst h7
                      simp +decide [Mdt.tprCats, dlookup_dsetdefault_ne, dlookup_dsetdefault_self]
                    · rw [if_neg h7]
                      by_cases h8 : script = "8"
                      · subst h8
                        simp +decide [Mdt.tprCats, dlookup_dsetdefault_ne, dlookup_dsetdefault_self]
                      · rw [if_neg h8]
                        by_cases h9 : script = "9"
                        · subst h9
                          simp +decide [Mdt.tprCats, dlookup_dsetdefault_ne, dlookup_dsetdefault_self]
                        · rw [if_neg h9]
                          by_cases h9p1 : script = "9.1"
                          · subst h9p1
                            simp +decide [Mdt.tprCats, dlookup_dsetdefault_ne, dlookup_dsetdefault_self]
                          · rw [if_neg h9p1]
                            by_cases h9p2 : script = "9.2"
                            · subst h9p2
                              simp +decide [Mdt.tprCats, dlookup_dsetdefault_ne, dlookup_dsetdefault_self]
                            · rw [if_neg h9p2]
                              by_cases h9p3 : script = "9.3"
                              · subst h9p3
                                simp +decide [Mdt.tprCats, dlookup_dsetdefault_ne, dlookup_dsetdefault_self]
                              · rw [if_neg h9p3]
                                by_cases h10 : script = "10"
                                · subst h10
                                  simp +decide [Mdt.tprCats, dlookup_dsetdefault_ne, dlookup_dsetdefault_self]
                                · rw [if_neg h10]
                                  by_cases h11 : script = "11"
                                  · subst h11
                                    simp +decide [Mdt.tprCats, dlookup_dsetdefault_ne, dlookup_dsetdefault_self]
                                  · rw [if_neg h11]
                                    by_cases h11p1 : script = "11.1"
                                    · subst h11p1
                                      simp +decide [Mdt.tprCats, dlookup_dsetdefault_ne, dlookup_dsetdefault_self]
                                    · rw [if_neg h11p1]
                                      by_cases h11p2 : script = "11.2"
                                      · subst h11p2
                                        simp +decide [Mdt.tprCats, dlookup_dsetdefault_ne, dlookup_dsetdefault_self]
                                      · rw [if_neg h11p2]
                                        by_cases h11p3 : script = "11.3"
                                        · subst h11p3
                                          simp +decide [Mdt.tprCats, dlookup_dsetdefault_ne, dlookup_dsetdefault_self]
                                        · rw [if_neg h11p3]
                                          by_cases h11p4 : script = "11.4"
                                          · subst h11p4
                                            simp +decide [Mdt.tprCats, dlookup_dsetdefault_ne, dlookup_dsetdefault_self]
                                          · rw [if_neg h11p4]
                                            have hc : Mdt.tprCats.contains script = false := by
                                              have hm : script ∉ Mdt.tprCats := by
                                                simp only [Mdt.tprCats, List.mem_cons, List.not_mem_nil, or_false]
                                                rintro (rfl | rfl | h)
                                                · exact h01 (by decide)
                                                · exact h01 (by decide)
                                                · rcases h with rfl | rfl | rfl | rfl | rfl | rfl | rfl | rfl |
                                                    rfl | rfl | rfl | rfl | rfl | rfl | rfl | rfl | rfl <;> simp_all
                                              simpa using hm
                                            rw [hc]
                                            simp

/-- What the script-name phase of the mdt requirement loop does to the
`run input` entry: scripts in `REQUIRE_TPR` `setdefault` it, everything else
leaves it untouched (the phase may raise only while resolving the `.edr`
file). -/
theorem Mdt.buildFilesPhase_run_input (fs : List String) (a : Mdt.Args)
    (files : Dict String) (script : String) (files' : Dict String)
    (h : Mdt.buildFilesPhase fs a files script = .ok files') :
    dlookup files' "run input" =
      if Mdt.REQUIRE_TPR.contains script then
        some ((dlookup files "run input").getD (Mdt.TPR_FILE a))
      else dlookup files "run input" := by
  unfold Mdt.buildFilesPhase at h
  simp only [bind, Except.bind] at h
  by_cases hE : Mdt.REQUIRE_EDR.contains script
  · have hs : script = "energy_dist" := by simpa [Mdt.REQUIRE_EDR] using hE
    subst hs
    rw [if_pos hE] at h
    cases hgcf : get_compressed_file fs (Mdt.EDR_FILE a) with
    | error e => rw [hgcf] at h; exact Except.noConfusion h
    | ok f =>
      rw [hgcf] at h
      injection h with h; subst h
      simp +decide [dlookup_dsetdefault_ne, dlookup_condSet_ne,
        dlookup_condSet_self]
  · rw [if_neg hE] at h
    injection h with h; subst h
    simp +decide [dlookup_condSet_ne, dlookup_condSet_self]


set_option maxHeartbeats 2000000 in
theorem Gmx.buildFilesStep_keeps_run_input (fs : List String) (a : Gmx.Args)
    (files : Dict String) (script : String) (files' : Dict String)
    (h : Gmx.buildFilesStep fs a files script = .ok files') :
    dlookup files' "run input" = dlookup files "run input" := by
  unfold Gmx.buildFilesStep at h
  simp only [bind, Except.bind] at h
  by_cases hE : Gmx.REQUIRE_EDR.contains script
  · rw [if_pos hE] at h
    cases hgcf : get_compressed_file fs (Gmx.EDR_FILE a) with
    | error e => rw [hgcf] at h; exact absurd h (by simp)
    | ok f =>
      rw [hgcf] at h
      simp only [pure, Except.pure] at h
      repeat' split at h
      all_goals first
        | exact Except.noConfusion h
        | (injection h with h; subst h;
           simp only [ne_eq, String.reduceEq, not_false_eq_true,
             dlookup_dsetdefault_ne, dlookup_condSet_ne, dlookup_dinsert_ne])
  · rw [if_neg hE] at h
    simp only [pure, Except.pure] at h
    repeat' split at h
    all_goals first
      | exact Except.noConfusion h
      | (injection h with h; subst h;
         simp only [ne_eq, String.reduceEq, not_false_eq_true,
           dlookup_dsetdefault_ne, dlookup_condSet_ne, dlookup_dinsert_ne])

theorem Mdt.buildFilesStep_sets_run_input (fs : List String) (a : Mdt.Args)
    (files : Dict String) (script : String) (files' : Dict String)
    (h : Mdt.buildFilesStep fs a files script = .ok files') :
    dlookup files' "run input" =
      if Mdt.addsTpr script then
        some ((dlookup files "run input").getD (Mdt.TPR_FILE a))
      else dlookup files "run input" := by
  unfold Mdt.buildFilesStep at h
  simp only [bind, Except.bind] at h
  cases hp : Mdt.buildFilesPhase fs a files script with
  | error e => rw [hp] at h; exact Except.noConfusion h
  | ok f1 =>
    rw [hp] at h
    injection h with h; subst h
    rw [Mdt.buildFilesCat_run_input,
      Mdt.buildFilesPhase_run_input fs a files script f1 hp]
    unfold Mdt.addsTpr
    cases hT : Mdt.REQUIRE_TPR.contains script <;>
      cases hC : Mdt.tprCats.contains script <;> simp

theorem Mdt.buildFiles_fold_sets_run_input (fs : List String) (a : Mdt.Args)
    (l : List String) :
    ∀ (files files' : Dict String),
      l.foldlM (Mdt.buildFilesStep fs a) files = .ok files' →
      dlookup files' "run input" =
        if l.any Mdt.addsTpr then
          some ((dlookup files "run input").getD (Mdt.TPR_FILE a))
        else dlookup files "run input" := by
  induction l with
  | nil => intro files files' h; injection h with h; subst h; simp
  | cons s rest ih =>
    intro files files' h
    rw [List.foldlM_cons] at h
    simp only [bind, Except.bind] at h
    cases hstep : Mdt.buildFilesStep fs a files s with
    | error e => rw [hstep] at h; exact Except.noConfusion h
    | ok f1 =>
      rw [hstep] at h
      rw [ih f1 files' h, Mdt.buildFilesStep_sets_run_input fs a files s f1 hstep]
      simp only [List.any_cons]
      rcases Bool.eq_false_or_eq_true (Mdt.addsTpr s) with hA | hA <;>
        rcases Bool.eq_false_or_eq_true (rest.any Mdt.addsTpr) with hR | hR <;>
          simp [hA, hR]

theorem Gmx.buildFiles_fold_keeps_run_input (fs : List String) (a : Gmx.Args)
    (l : List String) :
    ∀ (files files' : Dict String),
      l.foldlM (Gmx.buildFilesStep fs a) files = .ok files' →
      dlookup files' "run input" = dlookup files "run input" := by
  induction l with
  | nil => intro files files' h; injection h with h; subst h; rfl
  | cons s rest ih =>
    intro files files' h
    rw [List.foldlM_cons] at h
    simp only [bind, Except.bind] at h
    cases hstep : Gmx.buildFilesStep fs a files s with
    | error e => rw [hstep] at h; exact Except.noConfusion h
    | ok f1 =>
      rw [hstep] at h
      rw [ih f1 files' h, Gmx.buildFilesStep_keeps_run_input fs a files s f1 hstep]


/-! ### C4: the run-input file in the requirement set -/

/-- C4 (as amended).  The gmx submit script's requirement set always contains
the `run input` entry with the base `.tpr` file: the dict is seeded with it
before the loop and no loop step changes it.  The mdt submit script's dict
starts empty: it contains the run-input file if and only if some requested
token adds it — a script name in `REQUIRE_TPR` or a numbered category code up
to `11.1`; the selections `11.2`, `11.3`, `11.4`, `12` and `13` do not. -/
theorem requirement_set_run_input :
    (∀ (fs : List String) (a : Gmx.Args) (files' : Dict String),
        Gmx.buildFiles fs a = .ok files' →
        dlookup files' "run input" = some (Gmx.TPR_FILE a))
    ∧ (∀ (fs : List String) (a : Mdt.Args) (files' : Dict String),
        Mdt.buildFiles fs a = .ok files' →
        dlookup files' "run input" =
          if (pySplitS a.scripts).any Mdt.addsTpr then some (Mdt.TPR_FILE a)
          else Option.none) := by
  constructor
  · intro fs a files' h
    unfold Gmx.buildFiles at h
    rw [Gmx.buildFiles_fold_keeps_run_input fs a _ _ _ h]
    simp [dlookup]
  · intro fs a files' h
    unfold Mdt.buildFiles at h
    rw [Mdt.buildFiles_fold_sets_run_input fs a _ _ _ h]
    rcases Bool.eq_false_or_eq_true ((pySplitS a.scripts).any Mdt.addsTpr)
        with hA | hA <;> simp [hA, dlookup]

/-- C4 counterexample: requesting only category `11.3` from the mdt submit
script yields a requirement set holding the two renewal-event trajectories
and *not* the base run-input `.tpr` file. -/
theorem mdt_requirement_set_omits_run_input_counterexample :
    Mdt.buildFiles [] mdtArgs113
      = .ok [("discretized trajectory (renewal Li-ether)",
              "pr_sys_renewal_events_Li-ether_dtrj.npy"),
             ("discretized trajectory (renewal Li-TFSI)",
              "pr_sys_renewal_events_Li-NTf2_dtrj.npy")]
    ∧ dlookup [("discretized trajectory (renewal Li-ether)",
              "pr_sys_renewal_events_Li-ether_dtrj.npy"),
             ("discretized trajectory (renewal Li-TFSI)",
              "pr_sys_renewal_events_Li-NTf2_dtrj.npy")] "run input"
        = Option.none := by
  constructor
  · rfl
  · rfl

/-- C4 witness: both halves of `requirement_set_run_input` at concrete
invocations (gmx category `3`; mdt script `msd_Li`). -/
theorem requirement_set_run_input_witness :
    dlookup [("run input", "pr_sys.tpr"),
             ("full-precision trajectory", "pr_out_sys.trr")] "run input"
        = some (Gmx.TPR_FILE gmxArgs3)
    ∧ dlookup [("run input", "pr_sys.tpr"),
               ("unwrapped compressed trajectory",
                "pr_out_sys_pbc_whole_mol_nojump.xtc")] "run input"
        = (if (pySplitS mdtArgsMsd.scripts).any Mdt.addsTpr
           then some (Mdt.TPR_FILE mdtArgsMsd) else Option.none) :=
  ⟨requirement_set_run_input.1 [] gmxArgs3
      [("run input", "pr_sys.tpr"),
       ("full-precision trajectory", "pr_out_sys.trr")] (by decide),
   requirement_set_run_input.2 [] mdtArgsMsd
      [("run input", "pr_sys.tpr"),
       ("unwrapped compressed trajectory",
        "pr_out_sys_pbc_whole_mol_nojump.xtc")] (by decide)⟩


/-! ### C3: prerequisite validation precedes scheduler interaction -/

/-- A needle placed between two other strings is a Python-`in` substring of
the concatenation. -/
theorem pyContains_middle (x t y : String) :
    pyContains (x ++ t ++ y) t = true := by
  unfold pyContains
  rw [decide_eq_true_iff]
  exact ⟨x.data, y.data, by simp⟩

/-- C3.  Prerequisite validation precedes all scheduler interaction, for both
analysis submit scripts: whenever a required input file is found missing
(after the compression-variant fallbacks) — either by the existence check
over the assembled requirement set or already while resolving the `.edr`
energy file inside the requirement loop — the run ends with a
`FileNotFoundError`, the error message of the existence check names the
missing file, and the list of executed scheduler-submit commands is empty. -/
theorem prereq_validation_precedes_submission :
    (∀ (fs : List String) (boxZ : String → Q) (lastTime : String → Option Q)
        (oracle : String → String) (a : Gmx.Args) (sb : Dict PyVal)
        (ctx : Gmx.Ctx) (files : Dict String) (p : String × String),
        Gmx.processArgs fs boxZ lastTime a = .ok ctx →
        Gmx.buildFiles fs a = .ok files →
        files.find? (fun q => !fs.contains q.2) = some p →
        Gmx.main fs boxZ lastTime oracle a sb
          = ([], some (.fnf ("No such file: '" ++ p.2 ++ "' (" ++ p.1
              ++ " file)")))
        ∧ pyContains ("No such file: '" ++ p.2 ++ "' (" ++ p.1 ++ " file)")
            p.2 = true)
    ∧ (∀ (fs : List String) (boxZ : String → Q) (lastTime : String → Option Q)
        (oracle : String → String) (a : Gmx.Args) (sb : Dict PyVal)
        (ctx : Gmx.Ctx) (e : PyErr),
        Gmx.processArgs fs boxZ lastTime a = .ok ctx →
        Gmx.buildFiles fs a = .error e →
        Gmx.main fs boxZ lastTime oracle a sb = ([], some e))
    ∧ (∀ (fs dirs : List String) (boxZ : String → Q)
        (oracle : String → String) (a : Mdt.Args) (sb : Dict PyVal)
        (ctx : Mdt.Ctx) (files : Dict String) (p : String × String),
        Mdt.processArgs fs boxZ a = .ok ctx →
        Mdt.buildFiles fs a = .ok files →
        files.find? (fun q => !fs.contains q.2 && !Mdt.npzFallback fs q.2)
          = some p →
        Mdt.main fs dirs boxZ oracle a sb
          = ([], some (.fnf ("No such file: '" ++ p.2 ++ "' (" ++ p.1
              ++ " file)")))
        ∧ pyContains ("No such file: '" ++ p.2 ++ "' (" ++ p.1 ++ " file)")
            p.2 = true)
    ∧ (∀ (fs dirs : List String) (boxZ : String → Q)
        (oracle : String → String) (a : Mdt.Args) (sb : Dict PyVal)
        (ctx : Mdt.Ctx) (e : PyErr),
        Mdt.processArgs fs boxZ a = .ok ctx →
        Mdt.buildFiles fs a = .error e →
        Mdt.main fs dirs boxZ oracle a sb = ([], some e)) := by
  refine ⟨?_, ?_, ?_, ?_⟩
  · intro fs boxZ lastTime oracle a sb ctx files p hpa hbf hfind
    constructor
    · unfold Gmx.main
      simp only [hpa, hbf]
      unfold Gmx.checkFiles
      simp only [hfind]
    · have hmsg : ("No such file: '" ++ p.2 ++ "' (" ++ p.1 ++ " file)")
          = "No such file: '" ++ p.2 ++ ("' (" ++ p.1 ++ " file)") := by
        simp [String.append_assoc]
      rw [hmsg]
      exact pyContains_middle _ _ _
  · intro fs boxZ lastTime oracle a sb ctx e hpa hbf
    unfold Gmx.main
    simp only [hpa, hbf]
  · intro fs dirs boxZ oracle a sb ctx files p hpa hbf hfind
    constructor
    · unfold Mdt.main
      simp only [hpa, hbf]
      unfold Mdt.checkFiles
      simp only [hfind]
    · have hmsg : ("No such file: '" ++ p.2 ++ "' (" ++ p.1 ++ " file)")
          = "No such file: '" ++ p.2 ++ ("' (" ++ p.1 ++ " file)") := by
        simp [String.append_assoc]
      rw [hmsg]
      exact pyContains_middle _ _ _
  · intro fs dirs boxZ oracle a sb ctx e hpa hbf
    unfold Mdt.main
    simp only [hpa, hbf]

/-- C3 witness: concrete gmx and mdt invocations on an empty filesystem end
with the file-not-found error naming the first missing requirement and an
empty submission list. -/
theorem prereq_validation_precedes_submission_witness :
    Gmx.main [] (fun _ => ⟨0, 1⟩) (fun _ => Option.none) (fun _ => "")
        gmxArgs3 []
      = ([], some (.fnf ("No such file: '" ++ "pr_sys.tpr" ++ "' ("
          ++ "run input" ++ " file)")))
    ∧ Mdt.main [] [] (fun _ => ⟨0, 1⟩) (fun _ => "") mdtArgs113 []
      = ([], some (.fnf ("No such file: '"
          ++ "pr_sys_renewal_events_Li-ether_dtrj.npy" ++ "' ("
          ++ "discretized trajectory (renewal Li-ether)" ++ " file)"))) :=
  ⟨(prereq_validation_precedes_submission.1 [] (fun _ => ⟨0, 1⟩)
      (fun _ => Option.none) (fun _ => "") gmxArgs3 [] gmxCtx3
      [("run input", "pr_sys.tpr"),
       ("full-precision trajectory", "pr_out_sys.trr")]
      ("run input", "pr_sys.tpr") rfl rfl rfl).1,
   (prereq_validation_precedes_submission.2.2.1 [] [] (fun _ => ⟨0, 1⟩)
      (fun _ => "") mdtArgs113 [] ⟨⟨0, 1⟩, ⟨10, 1⟩, []⟩
      [("discretized trajectory (renewal Li-ether)",
        "pr_sys_renewal_events_Li-ether_dtrj.npy"),
       ("discretized trajectory (renewal Li-TFSI)",
        "pr_sys_renewal_events_Li-NTf2_dtrj.npy")]
      ("discretized trajectory (renewal Li-ether)",
       "pr_sys_renewal_events_Li-ether_dtrj.npy") rfl rfl rfl).1⟩


/-! ### C5 helpers: assignment, pop and the submission folds -/

/-- Overwriting assignment finds the new value (present key). -/
theorem find?_map_overwrite_self (k : String) (v : β) (d : Dict β)
    (h : dmem d k = true) :
    List.find? (fun p => decide (p.1 = k))
        (d.map (fun p => if p.1 = k then (k, v) else p))
      = some (k, v) := by
  induction d with
  | nil => simp [dmem, dlookup] at h
  | cons p rest ih =>
    rw [List.map_cons, List.find?_cons]
    by_cases hp : p.1 = k
    · rw [if_pos hp]; simp
    · rw [if_neg hp]
      cases hd : (decide (p.1 = k)) with
      | true => exact absurd (of_decide_eq_true hd) hp
      | false =>
        have hh : dmem rest k = true := by
          unfold dmem dlookup
          unfold dmem dlookup at h
          rw [List.find?_cons, hd] at h
          exact h
        simpa [hd] using ih hh

/-- Assignment stores the value at the key. -/
theorem dlookup_dinsert_self (d : Dict β) (k : String) (v : β) :
    dlookup (dinsert d k v) k = some v := by
  unfold dinsert
  by_cases h : dmem d k
  · rw [if_pos h]
    unfold dlookup
    rw [find?_map_overwrite_self k v d h]
    rfl
  · rw [if_neg h]
    rw [dlookup_append]
    unfold dmem at h
    rw [Option.not_isSome_iff_eq_none] at h
    rw [h]
    simp [dlookup, List.find?]

/-- `pop` really removes the key. -/
theorem dmem_dpop_self (d : Dict β) (k : String) :
    dmem (dpop d k) k = false := by
  unfold dmem dpop dlookup
  rw [List.find?_eq_none.mpr]
  · rfl
  · intro p hp
    have hq := (List.mem_filter.mp hp).2
    simp only [decide_eq_true_iff] at hq ⊢
    exact fun e => hq e

/-- `pop` leaves other keys untouched. -/
theorem dlookup_dpop_ne (d : Dict β) (k k' : String) (h : k' ≠ k) :
    dlookup (dpop d k) k' = dlookup d k' := by
  unfold dpop dlookup
  induction d with
  | nil => rfl
  | cons p rest ih =>
    rw [List.filter_cons, List.find?_cons]
    by_cases hp : p.1 = k
    · have hq : (decide (p.1 ≠ k)) = false := by simp [hp]
      have hr : (decide (p.1 = k')) = false := by
        simp only [decide_eq_false_iff_not, hp]
        exact fun e => h e.symm
      rw [hq, hr]
      simp only [Bool.false_eq_true, if_false]
      exact ih
    · have hq : (decide (p.1 ≠ k)) = true := by simpa using hp
      rw [hq, if_pos rfl, List.find?_cons]
      cases hr : (decide (p.1 = k')) with
      | true => rfl
      | false => exact ih

/-- Invariant of the `for batch_script in posargs.keys()` fold: every entry
it appends comes from a successful `act` call. -/
theorem resFold_aux (act : String → Except PyErr (List SubEntry))
    (P : SubEntry → Prop)
    (hact : ∀ s es, act s = .ok es → ∀ e ∈ es, P e) :
    ∀ (keys : List String) (r : SubmitRes), (∀ e ∈ r.1, P e) →
      ∀ e ∈ (List.foldl (fun r s =>
          match r.2 with
          | some _ => r
          | Option.none =>
            match act s with
            | .ok es => (r.1 ++ es, Option.none)
            | .error err => (r.1, some err)) r keys).1, P e := by
  intro keys
  induction keys with
  | nil => intro r hr; simpa using hr
  | cons s rest ih =>
    intro r hr
    rw [List.foldl_cons]
    apply ih
    cases hr2 : r.2 with
    | some e => simpa [hr2] using hr
    | none =>
      cases hact2 : act s with
      | ok es =>
        simp only [hr2, hact2]
        intro e he
        rcases List.mem_append.mp he with hm | hm
        · exact hr e hm
        · exact hact s es hact2 e hm
      | error err =>
        simp only [hr2, hact2]
        intro e he
        exact hr e he

/-- Every submission entry of `resFoldScripts` comes from a successful `act`
call. -/
theorem resFoldScripts_entries (keys : List String)
    (act : String → Except PyErr (List SubEntry)) (P : SubEntry → Prop)
    (hact : ∀ s es, act s = .ok es → ∀ e ∈ es, P e) :
    ∀ e ∈ (resFoldScripts keys act).1, P e := by
  unfold resFoldScripts
  exact resFold_aux act P hact keys ([], Option.none) (by simp)

/-- Every entry a single gmx submission step produces carries the script name
and the sbatch options it was called with. -/
theorem Gmx.submitOne_entries (a : Gmx.Args) (ctx : Gmx.Ctx)
    (pattern : String) (pstr : String → String) (opts : Dict PyVal)
    (s : String) (es : List SubEntry)
    (h : Gmx.submitOne a ctx pattern pstr opts s = .ok es) :
    ∀ e ∈ es, e.script = s ∧ e.opts = opts := by
  unfold Gmx.submitOne at h
  split at h
  · injection h with h; subst h; intro e he; simp at he
  · split at h
    · cases hd : gmx_submit_discretized opts s ctx.bin_edges pattern
          (Gmx.posargsGeneral a) (Gmx.posargsTrj a ctx) (Gmx.posargsDist a) with
      | error m => rw [hd] at h; exact absurd h (by simp)
      | ok cmds =>
        rw [hd] at h
        injection h with h; subst h
        intro e he
        rcases List.mem_map.mp he with ⟨c, _, rfl⟩
        exact ⟨rfl, rfl⟩
    · injection h with h; subst h
      intro e he
      rcases List.mem_cons.mp he with rfl | hm
      · exact ⟨rfl, rfl⟩
      · simp at hm

/-- A script requiring the wrapped trajectory never requires the unwrapped
one (the two gmx tables are disjoint), so the `elif` chain picks the
wrap-job dependency for it. -/
theorem Gmx.wrapped_not_unwrapped (s : String)
    (h : Gmx.REQUIRE_XTC_WRAPPED.contains s = true) :
    Gmx.REQUIRE_XTC_UNWRAPPED.contains s = false := by
  have hm : s ∈ Gmx.REQUIRE_XTC_WRAPPED := by simpa using h
  fin_cases hm <;> decide

/-- Taking the three prerequisite entries off a submission list. -/
theorem take3_append {α : Type} (x y z : α) (l : List α) :
    ([x, y, z] ++ l).take 3 = [x, y, z] := rfl

/-- Dropping the three prerequisite entries off a submission list. -/
theorem drop3_append {α : Type} (x y z : α) (l : List α) :
    ([x, y, z] ++ l).drop 3 = l := rfl

/-! ### C5: dependency chaining -/

/-- C5.  Dependency chaining in the gmx bulk block (categories `0`/`1`):
with job IDs `idN`, `idW`, `idU` extracted from the captured stdout of the
three prerequisite submissions, the block submits `make_ndx` with the user
options, then `trjconv_whole` depending on `make_ndx`, then `trjconv_nojump`
depending on `trjconv_whole`, in this order; every later entry carries
exactly the options picked by the `elif` chain on the requirement tables —
in particular a script requiring the wrapped trajectory carries the
dependency copy with `afterok:<trjconv_whole id>`, not the index-build ID.
The dependency copies are built from the user options with any
user-supplied `dependency`/`d` entry removed and the `afterok` value
stored under `dependency`. -/
theorem gmx_dependency_chaining
    (oracle : String → String) (a : Gmx.Args) (ctx : Gmx.Ctx)
    (pattern : String) (pstr : String → String)
    (args_sbatch : Dict PyVal) (idN idW idU : Nat)
    (hN : getJobId (oracle (Gmx.assembleCmd args_sbatch pattern pstr
        "make_ndx")) = .ok idN)
    (hW : getJobId (oracle (Gmx.assembleCmd
        (dep_opts (dpop (dpop args_sbatch "dependency") "d") idN)
        pattern pstr "trjconv_whole")) = .ok idW)
    (hU : getJobId (oracle (Gmx.assembleCmd
        (dep_opts (dpop (dpop args_sbatch "dependency") "d") idW)
        pattern pstr "trjconv_nojump")) = .ok idU) :
    (Gmx.block01 oracle a ctx pattern pstr args_sbatch
        (dpop (dpop args_sbatch "dependency") "d")).1.take 3
      = [⟨"make_ndx", args_sbatch,
          Gmx.assembleCmd args_sbatch pattern pstr "make_ndx"⟩,
         ⟨"trjconv_whole",
          dep_opts (dpop (dpop args_sbatch "dependency") "d") idN,
          Gmx.assembleCmd
            (dep_opts (dpop (dpop args_sbatch "dependency") "d") idN)
            pattern pstr "trjconv_whole"⟩,
         ⟨"trjconv_nojump",
          dep_opts (dpop (dpop args_sbatch "dependency") "d") idW,
          Gmx.assembleCmd
            (dep_opts (dpop (dpop args_sbatch "dependency") "d") idW)
            pattern pstr "trjconv_nojump"⟩]
    ∧ (∀ e ∈ (Gmx.block01 oracle a ctx pattern pstr args_sbatch
          (dpop (dpop args_sbatch "dependency") "d")).1.drop 3,
        e.opts = Gmx.chooseOpts args_sbatch
          (dep_opts (dpop (dpop args_sbatch "dependency") "d") idN)
          (dep_opts (dpop (dpop args_sbatch "dependency") "d") idW)
          (dep_opts (dpop (dpop args_sbatch "dependency") "d") idU)
          e.script)
    ∧ (∀ e ∈ (Gmx.block01 oracle a ctx pattern pstr args_sbatch
          (dpop (dpop args_sbatch "dependency") "d")).1.drop 3,
        Gmx.REQUIRE_XTC_WRAPPED.contains e.script = true →
        e.opts = dep_opts (dpop (dpop args_sbatch "dependency") "d") idW)
    ∧ dlookup (dep_opts (dpop (dpop args_sbatch "dependency") "d") idW)
        "dependency" = some (.str ("afterok:" ++ toString idW))
    ∧ dmem (dpop (dpop args_sbatch "dependency") "d") "dependency" = false
    ∧ dmem (dpop (dpop args_sbatch "dependency") "d") "d" = false := by
  have hb : (Gmx.block01 oracle a ctx pattern pstr args_sbatch
      (dpop (dpop args_sbatch "dependency") "d")).1
    = [⟨"make_ndx", args_sbatch,
        Gmx.assembleCmd args_sbatch pattern pstr "make_ndx"⟩,
       ⟨"trjconv_whole",
        dep_opts (dpop (dpop args_sbatch "dependency") "d") idN,
        Gmx.assembleCmd
          (dep_opts (dpop (dpop args_sbatch "dependency") "d") idN)
          pattern pstr "trjconv_whole"⟩,
       ⟨"trjconv_nojump",
        dep_opts (dpop (dpop args_sbatch "dependency") "d") idW,
        Gmx.assembleCmd
          (dep_opts (dpop (dpop args_sbatch "dependency") "d") idW)
          pattern pstr "trjconv_nojump"⟩]
      ++ (resFoldScripts Gmx.posargsKeys (fun s =>
          if !(pySplitS a.scripts).contains "0"
              && (pyContains s "densmap-z" || pyContains s "rdf_slab-z") then
            .ok []
          else if s = "make_ndx" || s = "trjconv_whole"
              || s = "trjconv_nojump" then
            .ok []
          else Gmx.submitOne a ctx pattern pstr
            (Gmx.chooseOpts args_sbatch
              (dep_opts (dpop (dpop args_sbatch "dependency") "d") idN)
              (dep_opts (dpop (dpop args_sbatch "dependency") "d") idW)
              (dep_opts (dpop (dpop args_sbatch "dependency") "d") idU)
              s) s)).1 := by
    unfold Gmx.block01
    simp only [hN, hW, hU]
    unfold seqRes
    rfl
  have hrest : ∀ e ∈ (Gmx.block01 oracle a ctx pattern pstr args_sbatch
      (dpop (dpop args_sbatch "dependency") "d")).1.drop 3,
      e.opts = Gmx.chooseOpts args_sbatch
        (dep_opts (dpop (dpop args_sbatch "dependency") "d") idN)
        (dep_opts (dpop (dpop args_sbatch "dependency") "d") idW)
        (dep_opts (dpop (dpop args_sbatch "dependency") "d") idU)
        e.script := by
    rw [hb, drop3_append]
    apply resFoldScripts_entries
    intro s es hes e he
    split at hes
    · injection hes with hes; subst hes; simp at he
    · split at hes
      · injection hes with hes; subst hes; simp at he
      · have hse := Gmx.submitOne_entries _ _ _ _ _ _ _ hes e he
        rw [hse.2, hse.1]
  refine ⟨?_, hrest, ?_, ?_, ?_, ?_⟩
  · rw [hb, take3_append]
  · intro e he hw
    rw [hrest e he]
    have hu := Gmx.wrapped_not_unwrapped e.script hw
    have hu2 : e.script ∉ Gmx.REQUIRE_XTC_UNWRAPPED := by simpa using hu
    have hw2 : e.script ∈ Gmx.REQUIRE_XTC_WRAPPED := by simpa using hw
    unfold Gmx.chooseOpts
    rw [if_neg (by simpa using hu2), if_pos (by simpa using hw2)]
  · unfold dep_opts
    exact dlookup_dinsert_self _ _ _
  · have h1 : dlookup (dpop (dpop args_sbatch "dependency") "d")
        "dependency" = dlookup (dpop args_sbatch "dependency") "dependency" :=
      dlookup_dpop_ne _ _ _ (by decide)
    unfold dmem
    rw [h1]
    have h2 : dlookup (dpop args_sbatch "dependency") "dependency"
        = Option.none := by
      have := dmem_dpop_self args_sbatch "dependency"
      unfold dmem at this
      exact Option.not_isSome_iff_eq_none.mp (by simp [this])
    rw [h2]
    rfl
  · have := dmem_dpop_self (dpop args_sbatch "dependency") "d"
    exact this

/-- C5 witness: the chaining theorem at a concrete invocation whose oracle
answers every submission with `Submitted batch job 5`. -/
theorem gmx_dependency_chaining_witness :
    (Gmx.block01 (fun _ => "Submitted batch job 5") gmxArgs3 gmxCtx3
        "pr_sys" (fun _ => "") [] (dpop (dpop [] "dependency") "d")).1.take 3
      = [⟨"make_ndx", [],
          Gmx.assembleCmd [] "pr_sys" (fun _ => "") "make_ndx"⟩,
         ⟨"trjconv_whole", dep_opts (dpop (dpop [] "dependency") "d") 5,
          Gmx.assembleCmd (dep_opts (dpop (dpop [] "dependency") "d") 5)
            "pr_sys" (fun _ => "") "trjconv_whole"⟩,
         ⟨"trjconv_nojump", dep_opts (dpop (dpop [] "dependency") "d") 5,
          Gmx.assembleCmd (dep_opts (dpop (dpop [] "dependency") "d") 5)
            "pr_sys" (fun _ => "") "trjconv_nojump"⟩] :=
  (gmx_dependency_chaining (fun _ => "Submitted batch job 5") gmxArgs3
    gmxCtx3 "pr_sys" (fun _ => "") [] 5 5 5 (by decide) (by decide)
    (by decide)).1

end HpcSS
